import Mathlib

/-!
Verification development for the Terminal-Macro-ICT trading-signal core.

The Python modules are shallowly embedded over exact rationals (ℚ stands for
the IEEE floats of the source, idealised to exact arithmetic; every numeric
constant of the source is an exactly representable decimal).  Python's
`round` builtin (banker's rounding, half-to-even) is modelled by `pyRound`,
`round(x, 2)` by `pyRound2`, `str.upper` on the ASCII labels of the source by
`pyUpper`, and the stable Timsort behind `list.sort(key=...)` by the stable
insertion sort `isort` (any two stable sorts of the same list under the same
total preorder agree elementwise, so `isort` is observationally the same
function).  Dictionaries keyed by strings are modelled by association lists
with last-write-wins insertion (`dictInsert`), preserving Python's
first-insertion iteration order.
-/

/-- Python `round(q)`: round half to even (banker's rounding). -/
def pyRound (q : ℚ) : ℤ :=
  let f := ⌊q⌋
  let frac := q - (f : ℚ)
  if frac < 1/2 then f
  else if 1/2 < frac then f + 1
  else if f % 2 = 0 then f else f + 1

/-- Python `round(q, 2)`: banker's rounding to two decimal places. -/
def pyRound2 (q : ℚ) : ℚ := (pyRound (q * 100) : ℚ) / 100

/-- Python `int(q)` on a float: truncation toward zero. -/
def pyTrunc (q : ℚ) : ℤ := if 0 ≤ q then ⌊q⌋ else -⌊-q⌋

/-- Python `x % d == 0` on floats: `x` is an exact multiple of `d`
(the quotient is an integer, i.e. equals its own floor). -/
def ratMultiple (x d : ℚ) : Bool := decide (x / d = ((⌊x / d⌋ : ℤ) : ℚ))

/-- Python `s.upper()` restricted to the ASCII labels used by the source. -/
def pyUpper (s : String) : String := String.mk (s.data.map Char.toUpper)

/-- Python `a or b` on strings: `a` unless it is falsy (empty). -/
def pyOrStr (a b : String) : String := if a = "" then b else a

theorem pyRound_dist (q : ℚ) : |(pyRound q : ℚ) - q| ≤ 1/2 := by
  have hfl : ((⌊q⌋ : ℤ) : ℚ) ≤ q := Int.floor_le q
  have hfu : q < (⌊q⌋ : ℚ) + 1 := Int.lt_floor_add_one q
  unfold pyRound
  by_cases h1 : q - (⌊q⌋ : ℚ) < 1/2
  · simp only [h1, if_true]
    rw [abs_le]; constructor <;> linarith
  · simp only [h1, if_false]
    by_cases h2 : 1/2 < q - (⌊q⌋ : ℚ)
    · simp only [h2, if_true]
      push_cast
      rw [abs_le]; constructor <;> linarith
    · simp only [h2, if_false]
      by_cases h3 : ⌊q⌋ % 2 = 0
      · simp only [h3, if_true]
        rw [abs_le]; constructor <;> linarith
      · simp only [h3, if_false]
        push_cast
        rw [abs_le]; constructor <;> linarith

theorem pyRound2_dist (q : ℚ) : |pyRound2 q - q| ≤ 1/200 := by
  have h := pyRound_dist (q * 100)
  have e : pyRound2 q - q = ((pyRound (q * 100) : ℚ) - q * 100) / 100 := by
    unfold pyRound2; ring
  rw [e, abs_div, abs_of_pos (show (0:ℚ) < 100 by norm_num)]
  linarith

/-- Stable insertion: the new element lands before the first entry it is
`le`-below-or-equal to. Inserting the earlier element of the original list
into the sorted suffix this way reproduces Python's stable sort order. -/
def insertS {α : Type} (le : α → α → Bool) (a : α) : List α → List α
  | [] => [a]
  | b :: bs => if le a b then a :: b :: bs else b :: insertS le a bs

/-- Stable insertion sort: observationally Python's `list.sort(key=...)`. -/
def isort {α : Type} (le : α → α → Bool) : List α → List α
  | [] => []
  | a :: as => insertS le a (isort le as)

theorem insertS_perm {α : Type} (le : α → α → Bool) (a : α) (l : List α) :
    (insertS le a l).Perm (a :: l) := by
  induction l with
  | nil => simp [insertS]
  | cons b bs ih =>
    unfold insertS
    by_cases h : le a b
    · simp [h]
    · simp only [h, if_false]
      exact ((ih.cons b).trans (List.Perm.swap a b bs))

theorem isort_perm {α : Type} (le : α → α → Bool) (l : List α) :
    (isort le l).Perm l := by
  induction l with
  | nil => simp [isort]
  | cons a as ih =>
    exact (insertS_perm le a (isort le as)).trans (ih.cons a)

theorem mem_isort {α : Type} (le : α → α → Bool) (l : List α) (x : α) :
    x ∈ isort le l ↔ x ∈ l := (isort_perm le l).mem_iff

theorem length_isort {α : Type} (le : α → α → Bool) (l : List α) :
    (isort le l).length = l.length := (isort_perm le l).length_eq

theorem insertS_pairwise {α : Type} (le : α → α → Bool)
    (htot : ∀ a b, le a b = true ∨ le b a = true)
    (htrans : ∀ a b c, le a b = true → le b c = true → le a c = true)
    (a : α) (l : List α) (hl : l.Pairwise (fun x y => le x y = true)) :
    (insertS le a l).Pairwise (fun x y => le x y = true) := by
  induction l with
  | nil => simp [insertS]
  | cons b bs ih =>
    rcases List.pairwise_cons.mp hl with ⟨hb, hbs⟩
    unfold insertS
    by_cases h : le a b
    · simp only [h, if_true]
      refine List.pairwise_cons.mpr ⟨?_, hl⟩
      intro y hy
      rcases List.mem_cons.mp hy with rfl | hy2
      · exact h
      · exact htrans a b y h (hb y hy2)
    · simp only [h, if_false]
      refine List.pairwise_cons.mpr ⟨?_, ih hbs⟩
      intro y hy
      have hy' := ((insertS_perm le a bs).mem_iff).mp hy
      rcases List.mem_cons.mp hy' with rfl | hy2
      · rcases htot y b with h' | h'
        · exact absurd h' h
        · exact h'
      · exact hb y hy2

theorem isort_pairwise {α : Type} (le : α → α → Bool)
    (htot : ∀ a b, le a b = true ∨ le b a = true)
    (htrans : ∀ a b c, le a b = true → le b c = true → le a c = true)
    (l : List α) : (isort le l).Pairwise (fun x y => le x y = true) := by
  induction l with
  | nil => simp [isort]
  | cons a as ih => exact insertS_pairwise le htot htrans a (isort le as) ih

/-- Python `dict` insertion: replace in place if the key exists, else append. -/
def dictInsert {β : Type} : List (String × β) → String → β → List (String × β)
  | [], k, v => [(k, v)]
  | (k', v') :: rest, k, v =>
      if k' = k then (k, v) :: rest else (k', v') :: dictInsert rest k v

theorem mem_dictInsert {β : Type} (l : List (String × β)) (k : String) (v : β)
    (p : String × β) (hp : p ∈ dictInsert l k v) : p = (k, v) ∨ p ∈ l := by
  induction l with
  | nil => simpa [dictInsert] using hp
  | cons q rest ih =>
    obtain ⟨k', v'⟩ := q
    unfold dictInsert at hp
    by_cases h : k' = k
    · simp only [h, if_true] at hp
      rcases List.mem_cons.mp hp with hp | hp
      · exact Or.inl hp
      · exact Or.inr (List.mem_cons_of_mem _ hp)
    · simp only [h, if_false] at hp
      rcases List.mem_cons.mp hp with hp | hp
      · exact Or.inr (hp ▸ List.mem_cons_self _ rest)
      · rcases ih hp with hp' | hp'
        · exact Or.inl hp'
        · exact Or.inr (List.mem_cons_of_mem _ hp')

theorem lookup_dictInsert_self {β : Type} (l : List (String × β)) (k : String) (v : β) :
    (dictInsert l k v).lookup k = some v := by
  induction l with
  | nil => simp [dictInsert, List.lookup]
  | cons q rest ih =>
    obtain ⟨k', v'⟩ := q
    unfold dictInsert
    by_cases h : k' = k
    · simp [h, List.lookup]
    · simp only [h, if_false, List.lookup]
      have hbeq : (k == k') = false := beq_false_of_ne (fun hk => h hk.symm)
      simp [hbeq, ih]

/-! ## Embedding of `operacional_xauusd.py` -/

namespace OperacionalXauusd

/-- `Direcao` enum. -/
inductive Direcao where
  | COMPRA
  | VENDA
  | NEUTRO
deriving DecidableEq, Repr

/-- `datetime.time` restricted to hour/minute (the source only builds and
compares such values); Python compares times lexicographically. -/
structure Time where
  hour : ℕ
  minute : ℕ
deriving DecidableEq, Repr

/-- `t1 <= t2` on `datetime.time` values (lexicographic). -/
def timeLe (a b : Time) : Bool :=
  decide (a.hour < b.hour) || (decide (a.hour = b.hour) && decide (a.minute ≤ b.minute))

/-- `t.strftime("%H:%M")`. -/
def fmt2 (n : ℕ) : String := if n < 10 then "0" ++ toString n else toString n

def timeLabel (t : Time) : String := fmt2 t.hour ++ ":" ++ fmt2 t.minute

structure JanelaPrioritaria where
  inicio : Time
  fim : Time
  direcao_esperada : String
deriving DecidableEq, Repr

structure ConfiguracaoOperacional where
  kill_zone_inicio : Time
  kill_zone_fim : Time
  janelas_prioritarias : List JanelaPrioritaria
  max_operacoes_por_janela : ℕ
  stop_minimo : ℚ
  stop_maximo : ℚ
  stop_apertado_limite : ℚ
  numero_alvos : ℕ
  tamanho_min_pavio : ℚ
  toque_tolerancia : ℚ
  forca_rejeicao_min : ℚ
  assertividade_esperada : ℚ

/-- The dataclass defaults of `ConfiguracaoOperacional`. -/
def defaultConfig : ConfiguracaoOperacional where
  kill_zone_inicio := ⟨23, 0⟩
  kill_zone_fim := ⟨6, 0⟩
  janelas_prioritarias :=
    [⟨⟨23, 20⟩, ⟨0, 30⟩, "VENDA"⟩,
     ⟨⟨0, 30⟩, ⟨1, 30⟩, "AMBAS"⟩,
     ⟨⟨3, 0⟩, ⟨4, 0⟩, "COMPRA"⟩,
     ⟨⟨5, 0⟩, ⟨6, 0⟩, "VENDA"⟩]
  max_operacoes_por_janela := 2
  stop_minimo := 35
  stop_maximo := 65
  stop_apertado_limite := 10
  numero_alvos := 4
  tamanho_min_pavio := 2
  toque_tolerancia := 1/2
  forca_rejeicao_min := 3/2
  assertividade_esperada := 87/100

structure NivelPsicologico where
  valor : ℚ
  step : ℚ
  tipo : String
  forca : ℕ
deriving DecidableEq, Repr

/-- `AnalisadorNiveisPsicologicos.identificar_step_do_dia`. -/
def identificar_step_do_dia (preco_atual : ℚ) : ℚ :=
  if preco_atual < 4800 then 50
  else if preco_atual < 5000 then 10
  else 20

/-- `AnalisadorNiveisPsicologicos.calcular_forca_nivel`: float `%` equality
`nivel % d == 0` holds exactly when `nivel` is a multiple of `d`. -/
def calcular_forca_nivel (nivel : ℚ) : ℕ :=
  if ratMultiple nivel 100 then 5
  else if ratMultiple nivel 50 then 4
  else if ratMultiple nivel 20 then 3
  else if ratMultiple nivel 10 then 2
  else 1

/-- `AnalisadorNiveisPsicologicos.identificar_tipo_nivel`. -/
def identificar_tipo_nivel (nivel preco_atual : ℚ) : String :=
  if nivel < preco_atual then "suporte"
  else if preco_atual < nivel then "resistencia"
  else "ambos"

/-- Step resolution shared by `get_niveis_psicologicos`:
`float(step_dia) if step_dia and step_dia > 0 else identificar_step_do_dia(...)`
(`step_dia = 0.0` is falsy, so the guard amounts to `step_dia > 0`). -/
def resolveStep (preco_atual : ℚ) (step_dia : Option ℚ) : ℚ :=
  match step_dia with
  | some s => if 0 < s then s else identificar_step_do_dia preco_atual
  | none => identificar_step_do_dia preco_atual

/-- The candidate list of `get_niveis_psicologicos`: offsets -40..40 of
step-multiples around the banker-rounded base, discarding non-positive
values (the loop body of the source). -/
def nivelCandidates (preco_atual step : ℚ) : List NivelPsicologico :=
  let base := (pyRound (preco_atual / step) : ℚ) * step
  (List.range 81).filterMap (fun (k : ℕ) =>
    let nivel_valor := base + (((k : ℤ) - 40 : ℤ) : ℚ) * step
    if nivel_valor ≤ 0 then none
    else some (⟨nivel_valor, step, identificar_tipo_nivel nivel_valor preco_atual,
                calcular_forca_nivel nivel_valor⟩ : NivelPsicologico))

/-- `AnalisadorNiveisPsicologicos.get_niveis_psicologicos`: the candidates,
stable-sorted by distance to the reference price, truncated to 20. -/
def get_niveis_psicologicos (preco_atual : ℚ) (step_dia : Option ℚ) : List NivelPsicologico :=
  (isort (fun a b => decide (|a.valor - preco_atual| ≤ |b.valor - preco_atual|))
    (nivelCandidates preco_atual (resolveStep preco_atual step_dia))).take 20

/-- One OHLC candle (the `dict[str, float]` the source passes around). -/
structure Candle where
  open_ : ℚ
  high : ℚ
  low : ℚ
  close : ℚ
deriving DecidableEq, Repr

/-- `DetectorRejeicao.detectar_rejeicao` (constructor parameters inlined as
the first two arguments).  The source tests the buy branch and then the sell
branch sequentially; the direction string matches at most one of them. -/
def detectar_rejeicao (tamanho_min_pavio toque_tolerancia : ℚ)
    (candle : Candle) (nivel : ℚ) (direcao_esperada : String) : Bool × ℚ :=
  let o := candle.open_
  let h := candle.high
  let l := candle.low
  let c := candle.close
  let pavio_superior := h - max c o
  let pavio_inferior := min c o - l
  if direcao_esperada = "COMPRA" ∧ l ≤ nivel + toque_tolerancia ∧
      tamanho_min_pavio ≤ pavio_inferior then
    (true, min (pavio_inferior / tamanho_min_pavio) 3)
  else if direcao_esperada = "VENDA" ∧ nivel - toque_tolerancia ≤ h ∧
      tamanho_min_pavio ≤ pavio_superior then
    (true, min (pavio_superior / tamanho_min_pavio) 3)
  else (false, 0)

/-- The `contexto` dict: recent extremes, absent keys as `none`. -/
structure Contexto where
  minima_recente : Option ℚ
  maxima_recente : Option ℚ
deriving DecidableEq, Repr

/-- `CalculadorStopEstrutural.calcular_stop`. -/
def calcular_stop (direcao : Direcao) (nivel_testado : ℚ) (contexto : Contexto)
    (stop_min : ℚ) : ℚ :=
  if direcao = Direcao.COMPRA then
    let minima := contexto.minima_recente.getD (nivel_testado - stop_min)
    pyRound2 (min (minima - 2) (nivel_testado - stop_min))
  else
    let maxima := contexto.maxima_recente.getD (nivel_testado + stop_min)
    pyRound2 (max (maxima + 2) (nivel_testado + stop_min))

/-- `CalculadorStopEstrutural.risco_pontos`. -/
def risco_pontos (entrada stop : ℚ) : ℚ := |entrada - stop|

/-- `GeradorAlvos.gerar_alvos` (`num_alvos` constructor parameter inlined). -/
def gerar_alvos (num_alvos : ℕ) (entrada : ℚ) (direcao : Direcao) (step_dia : ℚ) : List ℚ :=
  let base := (pyRound (entrada / step_dia) : ℚ) * step_dia
  let alvos :=
    if direcao = Direcao.COMPRA then
      (List.range' 1 num_alvos).filterMap (fun (i : ℕ) =>
        let alvo := base + (i : ℚ) * step_dia
        if entrada < alvo then some (pyRound2 alvo) else none)
    else
      (List.range' 1 num_alvos).filterMap (fun (i : ℕ) =>
        let alvo := base - (i : ℚ) * step_dia
        if alvo < entrada then some (pyRound2 alvo) else none)
  alvos.take num_alvos

/-- `SinalOperacional` (the wall-clock `timestamp` field is omitted: it is
`datetime.now()` and no claim concerns it). -/
structure SinalOperacional where
  direcao : Direcao
  entrada : ℚ
  stop : ℚ
  alvos : List ℚ
  nivel_testado : ℚ
  forca_rejeicao : ℚ
  risco_pontos : ℚ
  janela : String
deriving DecidableEq, Repr

/-- `_time_in_window`: the window may cross midnight. -/
def _time_in_window (t start fim : Time) : Bool :=
  if timeLe start fim then timeLe start t && timeLe t fim
  else timeLe start t || timeLe t fim

/-- Mutable engine state: `_day_key` and `_ops_by_window`
(the per-instance attributes of `OperacionalKillZone`). -/
structure EngineState where
  day_key : Option ℕ
  ops_by_window : List (String × ℕ)
deriving DecidableEq, Repr

/-- Fresh state as built by `OperacionalKillZone.__init__`. -/
def initialState : EngineState := ⟨none, []⟩

/-- `OperacionalKillZone._reset_if_new_day`. -/
def _reset_if_new_day (st : EngineState) (day_key : ℕ) : EngineState :=
  if st.day_key ≠ some day_key then ⟨some day_key, []⟩ else st

/-- `OperacionalKillZone.verificar_horario_permitido`. -/
def verificar_horario_permitido (cfg : ConfiguracaoOperacional) (agora : Time) : Bool :=
  _time_in_window agora cfg.kill_zone_inicio cfg.kill_zone_fim

/-- Label `f"{inicio:%H:%M}-{fim:%H:%M}"` of a priority window. -/
def janelaLabel (j : JanelaPrioritaria) : String :=
  timeLabel j.inicio ++ "-" ++ timeLabel j.fim

/-- `OperacionalKillZone.janela_atual`: `(permitido, label, direcao_esperada)`. -/
def janela_atual (cfg : ConfiguracaoOperacional) (agora : Time) :
    Bool × Option String × Option String :=
  if ¬ verificar_horario_permitido cfg agora then (false, none, none)
  else
    match cfg.janelas_prioritarias.find? (fun j => _time_in_window agora j.inicio j.fim) with
    | some j => (true, some (janelaLabel j), some j.direcao_esperada)
    | none => (true, some "OBSERVACAO", some "AMBAS")

/-- One candidate `(nivel, d)` iteration of the scan loop in
`analisar_oportunidade` (everything from the rejection test to the
construction of the signal; `none` models `continue`). -/
def tentar_candidato (cfg : ConfiguracaoOperacional) (preco_atual : ℚ) (candle : Candle)
    (contexto : Contexto) (step_eff : ℚ) (label : String)
    (nivel : NivelPsicologico) (d : String) : Option SinalOperacional :=
  let rf := detectar_rejeicao cfg.tamanho_min_pavio cfg.toque_tolerancia candle nivel.valor d
  if rf.1 = false ∨ rf.2 < cfg.forca_rejeicao_min then none
  else
    let direcao := if d = "COMPRA" then Direcao.COMPRA else Direcao.VENDA
    let stop0 := calcular_stop direcao nivel.valor contexto cfg.stop_minimo
    let risco0 := risco_pontos preco_atual stop0
    if risco0 < cfg.stop_apertado_limite then none
    else
      let stop := if cfg.stop_maximo < risco0 then
          pyRound2 (if direcao = Direcao.VENDA then preco_atual + cfg.stop_maximo
                    else preco_atual - cfg.stop_maximo)
        else stop0
      let risco := if cfg.stop_maximo < risco0 then risco_pontos preco_atual stop else risco0
      let alvos := gerar_alvos cfg.numero_alvos preco_atual direcao step_eff
      if alvos = [] then none
      else some ⟨direcao, pyRound2 preco_atual, pyRound2 stop, alvos, nivel.valor,
                 rf.2, risco, label⟩

/-- The stateless part of `analisar_oportunidade` after the quota check:
direction-set resolution, level generation and the first-match scan over the
5 nearest levels. `direcao_esperada` is normalised via the truthy-`or` chain
`(direcao_esperada or janela_dir or "AMBAS").upper()`. -/
def resolve_sinal (cfg : ConfiguracaoOperacional) (preco_atual : ℚ) (candle : Candle)
    (contexto : Contexto) (direcao_esperada : Option String) (step_dia : Option ℚ)
    (label : String) (janela_dir : Option String) : Option SinalOperacional :=
  let de0 := pyUpper (pyOrStr (direcao_esperada.getD "") (pyOrStr (janela_dir.getD "") "AMBAS"))
  let de := if de0 = "COMPRA" ∨ de0 = "VENDA" ∨ de0 = "AMBAS" then de0 else "AMBAS"
  match get_niveis_psicologicos preco_atual step_dia with
  | [] => none
  | n0 :: rest =>
    let step_eff := match step_dia with
      | some s => if 0 < s then s else n0.step
      | none => n0.step
    let directions := if de = "AMBAS" then ["COMPRA", "VENDA"] else [de]
    ((n0 :: rest).take 5).findSome? (fun nivel =>
      directions.findSome? (fun d =>
        tentar_candidato cfg preco_atual candle contexto step_eff label nivel d))

/-- `OperacionalKillZone.analisar_oportunidade` as an explicit state
transformer.  `agora` and `day_key` are the wall-clock inputs the source
defaults to `datetime.now(Europe/Lisbon)`; here they are explicit arguments
(the day key is abstracted to a number, only equality on it is used). -/
def analisar_oportunidade (cfg : ConfiguracaoOperacional) (st : EngineState)
    (preco_atual : ℚ) (candle : Candle) (contexto : Contexto) (agora : Time)
    (day_key : ℕ) (direcao_esperada : Option String) (step_dia : Option ℚ) :
    Option SinalOperacional × EngineState :=
  match janela_atual cfg agora with
  | (false, _, _) => (none, st)
  | (true, jl, jd) =>
    let st1 := _reset_if_new_day st day_key
    match jl with
    | none => (none, st1)
    | some label =>
      let used := (st1.ops_by_window.lookup label).getD 0
      if cfg.max_operacoes_por_janela ≤ used then (none, st1)
      else
        match resolve_sinal cfg preco_atual candle contexto direcao_esperada step_dia label jd with
        | none => (none, st1)
        | some sig =>
          (some sig, ⟨st1.day_key, dictInsert st1.ops_by_window label (used + 1)⟩)

end OperacionalXauusd

/-! ## Embedding of `trade_pattern_analysis.py` (and the `TradeSample`
dataclass of `trade_journal_db.py` it consumes) -/

namespace TradePatternAnalysis

/-- `trade_journal_db.TradeSample` (image blob itself not carried by the
dataclass; float fields as exact rationals). -/
structure TradeSample where
  trade_id : String
  symbol : String
  timeframe_min : ℤ
  dt_lisbon : String
  dt_utc : String
  direction : String
  psych_step : Option ℚ
  psych_level : Option ℚ
  level_type : Option String
  touched_level : Option Bool
  rejection : Option Bool
  confirmation : Option Bool
  entry : ℚ
  sl : ℚ
  tp : ℚ
  atr14 : Option ℚ
  result_r : Option ℚ
  notes : Option String
  image_name : Option String
  image_mime : Option String
  has_image : Bool
  created_at : String
deriving DecidableEq, Repr

structure TradeFeatures where
  trade_id : String
  hour : ℕ
  timeframe_min : ℤ
  direction_sign : ℤ
  level_type : Option String
  touched_level : Option Bool
  rejection : Option Bool
  confirmation : Option Bool
  rr : ℚ
  risk : ℚ
  reward : ℚ
  atr14 : Option ℚ
  risk_atr : Option ℚ
  reward_atr : Option ℚ
  entry_round_dist : Option ℚ
  entry_level_dist : Option ℚ
  entry_level_dist_atr : Option ℚ
  result_r : Option ℚ
deriving DecidableEq, Repr

/-- The `.hour` of `_parse_iso(dt)`, for the canonical
`YYYY-MM-DDTHH:MM:SS[±hh:mm|Z]` strings the journal stores (hour digits at
positions 11-12); the full `datetime.fromisoformat` grammar is out of scope
and no claim depends on the parsed value. -/
def _parse_iso_hour (s : String) : ℕ :=
  match s.data.drop 11 with
  | c1 :: c2 :: _ => 10 * (c1.toNat - 48) + (c2.toNat - 48)
  | _ => 0

/-- `_safe_div`. -/
def _safe_div (a b : ℚ) : Option ℚ := if b = 0 then none else some (a / b)

/-- `extract_features`: every trade is mapped to a feature row — there is no
exclusion of any sample and no skipped-row counter in the source. -/
def extract_features (trades : List TradeSample) (default_round_step : ℚ) :
    List TradeFeatures :=
  trades.map (fun t =>
    let hour := _parse_iso_hour t.dt_lisbon
    let direction_sign : ℤ := if pyUpper t.direction = "LONG" then 1 else -1
    let risk : ℚ := |t.entry - t.sl|
    let reward : ℚ := |t.tp - t.entry|
    let rr : ℚ := if 0 < risk then reward / risk else 0
    let atr : Option ℚ := match t.atr14 with
      | some a => if 0 < a then some a else none
      | none => none
    let risk_atr := match atr with
      | some a => _safe_div risk a
      | none => none
    let reward_atr := match atr with
      | some a => _safe_div reward a
      | none => none
    let step := match t.psych_step with
      | some s => if 0 < s then s else default_round_step
      | none => default_round_step
    let entry_round_dist := if 0 < step then
        some (|t.entry - (pyRound (t.entry / step) : ℚ) * step|)
      else none
    let entry_level_dist : Option ℚ := match t.psych_level with
      | some pl => if 0 < pl then some (|t.entry - pl|) else none
      | none => none
    let entry_level_dist_atr : Option ℚ := match entry_level_dist, atr with
      | some d, some a => some (d / a)
      | _, _ => none
    ⟨t.trade_id, hour, t.timeframe_min, direction_sign, t.level_type,
     t.touched_level, t.rejection, t.confirmation, rr, risk, reward, atr,
     risk_atr, reward_atr, entry_round_dist, entry_level_dist,
     entry_level_dist_atr, t.result_r⟩)

/-- `_vec`: the fixed 12-dimensional numeric vector. -/
def _vec (f : TradeFeatures) : List ℚ :=
  let touched : ℚ := if f.touched_level = some true then 1 else 0
  let rej : ℚ := if f.rejection = some true then 1 else 0
  let conf : ℚ := if f.confirmation = some true then 1 else 0
  let ltU := pyUpper (f.level_type.getD "")
  let lt : ℚ := if ltU = "SUPORTE" then 1 else if ltU = "RESISTENCIA" then -1 else 0
  [(f.hour : ℚ), (f.timeframe_min : ℚ), (f.direction_sign : ℚ), lt, touched,
   rej, conf, f.rr, f.risk_atr.getD 0, f.reward_atr.getD 0,
   f.entry_round_dist.getD 0, f.entry_level_dist_atr.getD 0]

/-- The default weight vector of `nearest_neighbors`. -/
def defaultWeights : List ℚ :=
  [3/5, 1/5, 3/5, 1/2, 3/10, 3/10, 3/10, 4/5, 6/5, 6/5, 2/5, 1]

/-- The per-candidate squared distance of the `nearest_neighbors` loop:
weighted squared Euclidean distance plus the fixed ATR-presence penalties.
The source returns `sqrt(d2)`; the square root is irrational-valued and
strictly monotone on the non-negative reals, so all comparisons, ordering
and ties between returned distances coincide with those of `d2`.  The
embedding therefore carries the squared distance. -/
def dist2 (weights : List ℚ) (target f : TradeFeatures) : ℚ :=
  let base := (List.zipWith (fun w (ab : ℚ × ℚ) => w * (ab.1 - ab.2) * (ab.1 - ab.2))
    weights ((_vec target).zip (_vec f))).sum
  let p1 : ℚ := if target.risk_atr.isNone ≠ f.risk_atr.isNone then 2 else 0
  let p2 : ℚ := if target.reward_atr.isNone ≠ f.reward_atr.isNone then 2 else 0
  let p3 : ℚ := if target.entry_level_dist_atr.isNone ≠ f.entry_level_dist_atr.isNone then 1 else 0
  base + p1 + p2 + p3

/-- `weights or [...]`: Python truthiness makes an empty or absent weight
list fall back to the default. -/
def resolveWeights (weights : Option (List ℚ)) : List ℚ :=
  match weights with
  | some w => if w = [] then defaultWeights else w
  | none => defaultWeights

/-- `by_id = \x7bf.trade_id: f for f in features\x7d`: dict comprehension,
last write wins on duplicate ids. -/
def by_id (features : List TradeFeatures) : List (String × TradeFeatures) :=
  features.foldl (fun d f => dictInsert d f.trade_id f) []

/-- The `out` list of the `nearest_neighbors` loop: every feature row other
than the target's id, paired with its distance, in iteration order. -/
def nnCandidates (features : List TradeFeatures) (target_id : String) (ws : List ℚ)
    (target : TradeFeatures) : List (String × ℚ) :=
  (features.filter (fun f => f.trade_id ≠ target_id)).map
    (fun f => (f.trade_id, dist2 ws target f))

/-- `nearest_neighbors` (distances squared, see `dist2`): builds the
last-write-wins `by_id` dict, drops every row with the target's id, computes
distances in iteration order, stable-sorts ascending and keeps `k`. -/
def nearest_neighbors (features : List TradeFeatures) (target_id : String) (k : ℕ)
    (weights : Option (List ℚ)) : List (String × ℚ) :=
  match (by_id features).lookup target_id with
  | none => []
  | some target =>
    (isort (fun a b : String × ℚ => decide (a.2 ≤ b.2))
      (nnCandidates features target_id (resolveWeights weights) target)).take k

end TradePatternAnalysis

/-! ## Embedding of `_atr14_by_date` from `xau_asia_oanda_build.py` -/

namespace XauAsiaOandaBuild

/-- True range at day `i`.  The source loop carries `prev_close`, which at
iteration `i > 0` is `close[i-1]`; day 0 has no prior close. -/
def trAt (high low close : List ℚ) : ℕ → ℚ
  | 0 => high.getD 0 0 - low.getD 0 0
  | j + 1 =>
      max (high.getD (j+1) 0 - low.getD (j+1) 0)
        (max |high.getD (j+1) 0 - close.getD j 0| |low.getD (j+1) 0 - close.getD j 0|)

/-- ATR value at index `13 + j`: seeded at index 13 with the arithmetic mean
of the first 14 true ranges (`mean(tr[:14])`), then Wilder smoothing
`atr[i] = (atr[i-1] * 13 + tr[i]) / 14`. -/
def atrFrom13 (high low close : List ℚ) : ℕ → ℚ
  | 0 => ((List.range 14).map (trAt high low close)).sum / 14
  | j + 1 => (atrFrom13 high low close j * 13 + trAt high low close (14 + j)) / 14

/-- `_atr14_by_date`.  `zip(..., strict=True)` requires the four input lists
to be parallel (equal lengths) — under that precondition `len(tr)` equals
`len(high)` and entry `i ≥ 13` of the `atr` array is `atrFrom13 (i - 13)`;
the `None` prefix of the array is dropped by the final filter, so the result
pairs `dates[13+j]` with `atrFrom13 j`.  The date → value dict is returned
as the association list in insertion order. -/
def _atr14_by_date (dates : List String) (high low close : List ℚ) :
    List (String × ℚ) :=
  if dates = [] then []
  else if high.length < 14 then []
  else (List.range (high.length - 13)).map
    (fun j => (dates.getD (13 + j) "", atrFrom13 high low close j))

end XauAsiaOandaBuild

/-! ## Embedding of `xau_entry_heuristics.py` -/

namespace XauEntryHeuristics

/-- `EntryPlan` (the advisory `notes` strings and the `stats` audit dict are
omitted: they carry no numeric contract and no claim mentions them). -/
structure EntryPlan where
  direction : String
  entry : ℚ
  stop : ℚ
  take_profit : ℚ
  rr : ℚ
  lots : Option ℚ
  risk_amount : Option ℚ
  stop_distance : ℚ
deriving DecidableEq, Repr

/-- One history row as consumed by `build_entry_plan` (`r.get(...)` on the
keys it reads; rows may carry further keys, which the function ignores). -/
structure HistRow where
  open_ : Option ℚ
  h1_high : Option ℚ
  h1_low : Option ℚ
  h1_close : Option ℚ
  atr14 : Option ℚ
deriving DecidableEq, Repr

/-- A row of `rows_h1`: all four H1 fields present. -/
structure H1Row where
  o : ℚ
  h : ℚ
  l : ℚ
  c : ℚ
  atr : Option ℚ
deriving DecidableEq, Repr

/-- The `rows_h1` filter: keep rows whose `open`, `h1_high`, `h1_low`,
`h1_close` are all non-`None`. -/
def h1Fields (r : HistRow) : Option H1Row :=
  match r.open_, r.h1_high, r.h1_low, r.h1_close with
  | some o, some h, some l, some c => some ⟨o, h, l, c, r.atr14⟩
  | _, _, _, _ => none

/-- `statistics.median`: sort, take the middle element (odd length) or the
mean of the two middle elements (even length).  Callers only apply it to
non-empty lists (Python raises on `[]`). -/
def median (l : List ℚ) : ℚ :=
  let s := isort (fun a b : ℚ => decide (a ≤ b)) l
  let n := s.length
  if n % 2 = 1 then s.getD (n / 2) 0
  else (s.getD (n / 2 - 1) 0 + s.getD (n / 2) 0) / 2

/-- `_nearest_round`. -/
def _nearest_round (price step : ℚ) : ℚ :=
  if step ≤ 0 then price else (pyRound (price / step) : ℚ) * step

/-- `_round_to_step`: favourable-direction rounding to a step multiple.
In the "down" branch the source's `int(k) if k == int(k) else int(k)` is
`int(k)` in both arms (truncation toward zero). -/
def _round_to_step (price step : ℚ) (direction : String) : ℚ :=
  if step ≤ 0 then price
  else
    let k := price / step
    if direction = "down" then (pyTrunc k : ℚ) * step
    else ((pyTrunc k : ℚ) + (if k = (pyTrunc k : ℚ) then 0 else 1)) * step

/-- The tail of `build_entry_plan`: re-verify the effective risk:reward of
the snapped target `tp1` against `min_rr` (with the 1e-9 float tolerance of
the source) and undo the snap if it violates the floor, then assemble the
plan record.  (`lots`/`risk_amount` are precomputed by the caller: they do
not depend on the take-profit.) -/
def finishPlan (direction : String) (entry stop tp1 min_rr stop_distance : ℚ)
    (sizing : Option ℚ × Option ℚ) : EntryPlan :=
  let effective_rr0 := if 0 < |entry - stop| then |tp1 - entry| / |entry - stop| else 0
  let undo := effective_rr0 + 1/1000000000 < min_rr
  let take_profit := if undo then
      if direction = "LONG" then entry + stop_distance * min_rr
      else if direction = "SHORT" then entry - stop_distance * min_rr
      else tp1
    else tp1
  let effective_rr := if undo then min_rr else effective_rr0
  ⟨direction, entry, stop, take_profit, effective_rr, sizing.1, sizing.2, stop_distance⟩

/-- Body of `build_entry_plan` for a non-empty history (everything after
the `if not history` early return).  The dead local `rows_for_stats` and the
dead pre-snap `rr = min_rr if stop_distance > 0 else 0` assignment of the
source (both never read again) are not carried. -/
def _plan_core (history : List HistRow) (reference_price round_step round_proximity min_rr : ℚ)
    (account_balance risk_percent : Option ℚ) (contract_size : ℚ) : EntryPlan :=
  let rows_h1 := history.filterMap h1Fields
  let up_moves := rows_h1.map (fun r => r.h - r.o)
  let down_moves := rows_h1.map (fun r => r.o - r.l)
  let up_moves_atr := rows_h1.filterMap (fun r => match r.atr with
    | some a => if 0 < a then some ((r.h - r.o) / a) else none
    | none => none)
  let down_moves_atr := rows_h1.filterMap (fun r => match r.atr with
    | some a => if 0 < a then some ((r.o - r.l) / a) else none
    | none => none)
  let close_dir : List ℤ := rows_h1.map (fun r => if r.o < r.c then 1 else -1)
  let med_up := if up_moves ≠ [] then some (median up_moves) else none
  let med_down := if down_moves ≠ [] then some (median down_moves) else none
  let med_up_atr := if up_moves_atr ≠ [] then some (median up_moves_atr) else none
  let med_down_atr := if down_moves_atr ≠ [] then some (median down_moves_atr) else none
  let current_atr0 : Option ℚ := history.foldl (fun acc r => match r.atr14 with
    | some a => if 0 < a then some a else acc
    | none => acc) none
  let current_atr : Option ℚ := match current_atr0 with
    | some a => some a
    | none =>
      if rows_h1 ≠ [] then
        match med_up, med_down with
        | some u, some d => some (max u d * 2)
        | some u, none => some (u * 2)
        | none, some d => some (d * 2)
        | none, none => none
      else none
  let nearest := _nearest_round reference_price round_step
  let near_round := |reference_price - nearest| ≤ round_proximity
  let near_rows := if rows_h1 ≠ [] then
      rows_h1.filter (fun r => |r.o - _nearest_round r.o round_step| ≤ round_proximity)
    else []
  let long_winrate : Option ℚ := if near_rows ≠ [] then
      some (((near_rows.filter (fun r => r.o < r.c)).length : ℚ) / (near_rows.length : ℚ))
    else none
  let fallback := if rows_h1 ≠ [] then
      let overall := ((close_dir.sum : ℤ) : ℚ) / (close_dir.length : ℚ)
      if 1/20 ≤ overall then "LONG" else if overall ≤ -(1/20) then "SHORT" else "NEUTRAL"
    else "NEUTRAL"
  let direction := match long_winrate with
    | some w =>
      if 80 ≤ near_rows.length then
        if 55/100 ≤ w then "LONG" else if w ≤ 45/100 then "SHORT" else "NEUTRAL"
      else fallback
    | none => fallback
  let entry := if near_round then nearest else reference_price
  let base_stop :=
    if current_atr.isSome ∧ med_up_atr.isSome ∧ med_down_atr.isSome then
      (if direction = "LONG" then med_down_atr.getD 0
       else if direction = "SHORT" then med_up_atr.getD 0
       else max (med_up_atr.getD 0) (med_down_atr.getD 0)) * current_atr.getD 0
    else if med_up.isSome ∧ med_down.isSome then
      if direction = "LONG" then med_down.getD 0
      else if direction = "SHORT" then med_up.getD 0
      else max (med_up.getD 0) (med_down.getD 0)
    else if med_up.isSome then med_up.getD 0
    else if med_down.isSome then med_down.getD 0
    else if 0 < round_step then max 1 (round_step * (1/10)) else 1
  let stop_distance := max base_stop (1/2)
  let stop := if direction = "LONG" then entry - stop_distance
    else if direction = "SHORT" then entry + stop_distance
    else entry - stop_distance
  let tp0 := if direction = "LONG" then entry + stop_distance * min_rr
    else if direction = "SHORT" then entry - stop_distance * min_rr
    else entry + stop_distance * min_rr
  let tp1 := if 0 < round_step then
      if direction = "LONG" then _round_to_step tp0 round_step "up"
      else if direction = "SHORT" then _round_to_step tp0 round_step "down"
      else tp0
    else tp0
  let sizing : Option ℚ × Option ℚ := match account_balance, risk_percent with
    | some ab, some rp =>
      let risk_amount := ab * rp / 100
      let denom := stop_distance * contract_size
      ((if 0 < denom then some (risk_amount / denom) else none), some risk_amount)
    | _, _ => (none, none)
  finishPlan direction entry stop tp1 min_rr stop_distance sizing

/-- `build_entry_plan`.  The degenerate empty-history branch returns the
neutral plan centred on the reference price with `rr = 0`. -/
def build_entry_plan (history : List HistRow)
    (reference_price round_step round_proximity min_rr : ℚ)
    (account_balance risk_percent : Option ℚ) (contract_size : ℚ) : EntryPlan :=
  match history with
  | [] => ⟨"NEUTRAL", reference_price, reference_price, reference_price, 0, none, none, 0⟩
  | h :: t => _plan_core (h :: t) reference_price round_step round_proximity min_rr
      account_balance risk_percent contract_size

end XauEntryHeuristics

/-! ## Generic helper lemmas -/

theorem filterMap_all_some {α β : Type} (f : α → Option β) (g : α → β) (l : List α)
    (h : ∀ x ∈ l, f x = some (g x)) : l.filterMap f = l.map g := by
  induction l with
  | nil => simp
  | cons a as ih =>
    rw [List.filterMap_cons, h a (List.mem_cons_self a as), List.map_cons,
      ih (fun x hx => h x (List.mem_cons_of_mem a hx))]

theorem pyRound_mul_dist (e s : ℚ) (hs : 0 < s) :
    |(pyRound (e / s) : ℚ) * s - e| ≤ s / 2 := by
  have h := pyRound_dist (e / s)
  have e1 : (pyRound (e / s) : ℚ) * s - e = ((pyRound (e / s) : ℚ) - e / s) * s := by
    field_simp
  rw [e1, abs_mul, abs_of_pos hs]
  calc |(pyRound (e / s) : ℚ) - e / s| * s ≤ (1/2) * s :=
        mul_le_mul_of_nonneg_right h (le_of_lt hs)
    _ = s / 2 := by ring

theorem pairwise_take_drop {α : Type} {R : α → α → Prop} {l : List α} (k : ℕ)
    (h : l.Pairwise R) : ∀ x ∈ l.take k, ∀ y ∈ l.drop k, R x y := by
  have := List.take_append_drop k l
  rw [← this] at h
  exact (List.pairwise_append.mp h).2.2

namespace OperacionalXauusd

/-! ## Lemmas about the kill-zone engine -/

theorem gerar_alvos_length (n : ℕ) (entrada step : ℚ) (direcao : Direcao) (hs : 0 < step) :
    (gerar_alvos n entrada direcao step).length = n := by
  have hbase := pyRound_mul_dist entrada step hs
  rw [abs_le] at hbase
  unfold gerar_alvos
  by_cases hd : direcao = Direcao.COMPRA
  · simp only [hd, if_true]
    have hall : ∀ i ∈ List.range' 1 n,
        (if entrada < (pyRound (entrada / step) : ℚ) * step + (i : ℚ) * step then
          some (pyRound2 ((pyRound (entrada / step) : ℚ) * step + (i : ℚ) * step)) else none)
        = some (pyRound2 ((pyRound (entrada / step) : ℚ) * step + (i : ℚ) * step)) := by
      intro i hi
      have h1 : 1 ≤ i ∧ i < 1 + n := List.mem_range'_1.mp hi
      have h1q : (1 : ℚ) ≤ (i : ℚ) := by exact_mod_cast h1.1
      have hlt : entrada < (pyRound (entrada / step) : ℚ) * step + (i : ℚ) * step := by
        nlinarith
      simp [hlt]
    rw [filterMap_all_some _ _ _ hall, List.length_take, List.length_map, List.length_range']
    exact Nat.min_self n
  · simp only [hd, if_false]
    have hall : ∀ i ∈ List.range' 1 n,
        (if (pyRound (entrada / step) : ℚ) * step - (i : ℚ) * step < entrada then
          some (pyRound2 ((pyRound (entrada / step) : ℚ) * step - (i : ℚ) * step)) else none)
        = some (pyRound2 ((pyRound (entrada / step) : ℚ) * step - (i : ℚ) * step)) := by
      intro i hi
      have h1 : 1 ≤ i ∧ i < 1 + n := List.mem_range'_1.mp hi
      have h1q : (1 : ℚ) ≤ (i : ℚ) := by exact_mod_cast h1.1
      have hlt : (pyRound (entrada / step) : ℚ) * step - (i : ℚ) * step < entrada := by
        nlinarith
      simp [hlt]
    rw [filterMap_all_some _ _ _ hall, List.length_take, List.length_map, List.length_range']
    exact Nat.min_self n

theorem resolveStep_pos (preco : ℚ) (sd : Option ℚ) : 0 < resolveStep preco sd := by
  have hstep : 0 < identificar_step_do_dia preco := by
    unfold identificar_step_do_dia
    split_ifs <;> norm_num
  rcases sd with _ | s
  · exact hstep
  · unfold resolveStep
    by_cases h0 : 0 < s
    · simp [h0]
    · simpa [h0] using hstep

theorem mem_nivelCandidates {preco step : ℚ} {nv : NivelPsicologico}
    (h : nv ∈ nivelCandidates preco step) :
    ∃ k : ℕ, k < 81 ∧
      ¬ ((pyRound (preco / step) : ℚ) * step + (((k : ℤ) - 40 : ℤ) : ℚ) * step ≤ 0) ∧
      nv = ⟨(pyRound (preco / step) : ℚ) * step + (((k : ℤ) - 40 : ℤ) : ℚ) * step, step,
        identificar_tipo_nivel ((pyRound (preco / step) : ℚ) * step
          + (((k : ℤ) - 40 : ℤ) : ℚ) * step) preco,
        calcular_forca_nivel ((pyRound (preco / step) : ℚ) * step
          + (((k : ℤ) - 40 : ℤ) : ℚ) * step)⟩ := by
  unfold nivelCandidates at h
  rcases List.mem_filterMap.mp h with ⟨k, hk81, hk⟩
  dsimp only at hk
  refine ⟨k, List.mem_range.mp hk81, ?_, ?_⟩
  · intro hle
    rw [if_pos hle] at hk
    exact absurd hk (by simp)
  · by_cases hle : (pyRound (preco / step) : ℚ) * step + (((k : ℤ) - 40 : ℤ) : ℚ) * step ≤ 0
    · rw [if_pos hle] at hk
      exact absurd hk (by simp)
    · rw [if_neg hle, Option.some.injEq] at hk
      exact hk.symm

theorem niveis_step_pos (preco : ℚ) (sd : Option ℚ) (nv : NivelPsicologico)
    (h : nv ∈ get_niveis_psicologicos preco sd) : 0 < nv.step := by
  unfold get_niveis_psicologicos at h
  have h1 := List.mem_of_mem_take h
  rw [mem_isort] at h1
  rcases mem_nivelCandidates h1 with ⟨k, _, _, hk⟩
  rw [hk]
  exact resolveStep_pos preco sd

theorem get_niveis_structure (preco : ℚ) (sd : Option ℚ) :
    (get_niveis_psicologicos preco sd).length ≤ 20 ∧
    (get_niveis_psicologicos preco sd).Pairwise
      (fun a b => |a.valor - preco| ≤ |b.valor - preco|) ∧
    (∀ nv ∈ get_niveis_psicologicos preco sd,
      0 < nv.valor ∧
      nv.step = resolveStep preco sd ∧
      nv.tipo = identificar_tipo_nivel nv.valor preco ∧
      nv.forca = calcular_forca_nivel nv.valor ∧
      ∃ k : ℤ, -40 ≤ k ∧ k ≤ 40 ∧
        nv.valor = (pyRound (preco / resolveStep preco sd) : ℚ) * resolveStep preco sd
          + (k : ℚ) * resolveStep preco sd) := by
  refine ⟨?_, ?_, ?_⟩
  · unfold get_niveis_psicologicos
    rw [List.length_take]
    exact Nat.min_le_left _ _
  · unfold get_niveis_psicologicos
    have hs := isort_pairwise
      (fun a b : NivelPsicologico => decide (|a.valor - preco| ≤ |b.valor - preco|))
      (fun a b => by
        rcases le_total |a.valor - preco| |b.valor - preco| with h | h
        · exact Or.inl (by simpa using h)
        · exact Or.inr (by simpa using h))
      (fun a b c hab hbc => by
        simp only [decide_eq_true_eq] at hab hbc ⊢
        exact le_trans hab hbc)
      (nivelCandidates preco (resolveStep preco sd))
    have hp := hs.imp (fun h => by simpa using h)
    exact List.Pairwise.sublist (List.take_sublist 20 _) hp
  · intro nv h
    unfold get_niveis_psicologicos at h
    have h1 := List.mem_of_mem_take h
    rw [mem_isort] at h1
    rcases mem_nivelCandidates h1 with ⟨k, hk81, hpos, hk⟩
    refine ⟨?_, ?_, ?_, ?_, ?_⟩
    · rw [hk]
      simpa using not_le.mp hpos
    · rw [hk]
    · rw [hk]
    · rw [hk]
    · refine ⟨(k : ℤ) - 40, by omega, by omega, ?_⟩
      rw [hk]

end OperacionalXauusd

namespace OperacionalXauusd

/-- C8: `_time_in_window` honors midnight wraparound — in general membership
holds iff (start ≤ end and start ≤ t ≤ end) or (start > end and (t ≥ start or
t ≤ end)); with the default session window 23:00-06:00,
`verificar_horario_permitido` is true at 23:30, 00:00 and 05:59 and false at
12:00 and 07:00. -/
theorem C8_session_wraparound :
    (∀ t start fim : Time, _time_in_window t start fim = true ↔
      (if timeLe start fim = true then timeLe start t = true ∧ timeLe t fim = true
       else timeLe start t = true ∨ timeLe t fim = true)) ∧
    verificar_horario_permitido defaultConfig ⟨23, 30⟩ = true ∧
    verificar_horario_permitido defaultConfig ⟨0, 0⟩ = true ∧
    verificar_horario_permitido defaultConfig ⟨5, 59⟩ = true ∧
    verificar_horario_permitido defaultConfig ⟨12, 0⟩ = false ∧
    verificar_horario_permitido defaultConfig ⟨7, 0⟩ = false := by
  refine ⟨?_, by decide, by decide, by decide, by decide, by decide⟩
  intro t start fim
  unfold _time_in_window
  by_cases h : timeLe start fim = true
  · simp [h]
  · simp [h]

/-- C9: the rejection detector — for direction "COMPRA" a rejection is
reported iff the low touches within tolerance above the level and the lower
wick reaches the minimum size, with strength `min(wick/min_wick, 3)`; the
"VENDA" case mirrors with the upper wick; any other direction yields
`(false, 0)`; and the concrete candle (o 100, h 103, l 95, c 101) against
level 96, direction buy, tolerance 0.5, minimum wick 2 is a rejection of
strength 2.5. -/
theorem C9_detectar_rejeicao :
    detectar_rejeicao 2 (1/2) ⟨100, 103, 95, 101⟩ 96 "COMPRA" = (true, 5/2) ∧
    (∀ (c : Candle) (nivel tol minW : ℚ), 0 < minW →
      (detectar_rejeicao minW tol c nivel "COMPRA" =
        (if c.low ≤ nivel + tol ∧ minW ≤ min c.close c.open_ - c.low
         then (true, min ((min c.close c.open_ - c.low) / minW) 3) else (false, 0))) ∧
      (detectar_rejeicao minW tol c nivel "VENDA" =
        (if nivel - tol ≤ c.high ∧ minW ≤ c.high - max c.close c.open_
         then (true, min ((c.high - max c.close c.open_) / minW) 3) else (false, 0))) ∧
      (∀ d : String, d ≠ "COMPRA" → d ≠ "VENDA" →
        detectar_rejeicao minW tol c nivel d = (false, 0))) := by
  refine ⟨?_, ?_⟩
  · norm_num [detectar_rejeicao, min_def, max_def]
  · intro c nivel tol minW _
    refine ⟨?_, ?_, ?_⟩
    · unfold detectar_rejeicao
      simp
    · unfold detectar_rejeicao
      simp
    · intro d hc hv
      unfold detectar_rejeicao
      simp [hc, hv]

/-- C9 witness: the general equations instantiated at the concrete candle of
the spec example. -/
theorem C9_detectar_rejeicao_witness :
    (0 : ℚ) < 2 ∧
    (detectar_rejeicao 2 (1/2) ⟨100, 103, 95, 101⟩ 96 "COMPRA" =
      (if (95 : ℚ) ≤ 96 + 1/2 ∧ (2 : ℚ) ≤ min 101 100 - 95
       then (true, min ((min (101 : ℚ) 100 - 95) / 2) 3) else (false, 0))) := by
  refine ⟨by norm_num, ?_⟩
  have h := (C9_detectar_rejeicao.2 ⟨100, 103, 95, 101⟩ 96 (1/2) 2 (by norm_num)).1
  exact h

end OperacionalXauusd

namespace OperacionalXauusd

/-- C10: target generation never comes up empty — for any positive entry and
step, `gerar_alvos` returns exactly `num_alvos` targets (the banker-rounded
base is within step/2 of the entry, so every candidate `base ± i·step`,
`i ≥ 1`, lands strictly on the favorable side and the wrong-side discard
never fires); every psychological level carries a positive step, so with the
default config (4 targets) the signal engine's empty-targets rejection
branch can never be taken. -/
theorem C10_gerar_alvos_never_empty :
    (∀ (n : ℕ) (entrada step : ℚ) (direcao : Direcao), 0 < entrada → 0 < step →
      (gerar_alvos n entrada direcao step).length = n) ∧
    (∀ (n : ℕ) (entrada step : ℚ) (direcao : Direcao), 0 < entrada → 0 < step → 0 < n →
      gerar_alvos n entrada direcao step ≠ []) ∧
    (∀ (preco : ℚ) (sd : Option ℚ) (nv : NivelPsicologico),
      nv ∈ get_niveis_psicologicos preco sd → 0 < nv.step) ∧
    (∀ (entrada step : ℚ) (direcao : Direcao), 0 < entrada → 0 < step →
      gerar_alvos defaultConfig.numero_alvos entrada direcao step ≠ []) := by
  have hlen : ∀ (n : ℕ) (entrada step : ℚ) (direcao : Direcao), 0 < entrada → 0 < step →
      (gerar_alvos n entrada direcao step).length = n :=
    fun n entrada step direcao _ hs => gerar_alvos_length n entrada step direcao hs
  have hne : ∀ (n : ℕ) (entrada step : ℚ) (direcao : Direcao), 0 < entrada → 0 < step →
      0 < n → gerar_alvos n entrada direcao step ≠ [] := by
    intro n entrada step direcao he hs hn hnil
    have := hlen n entrada step direcao he hs
    rw [hnil] at this
    simp at this
    omega
  exact ⟨hlen, hne, fun preco sd nv h => niveis_step_pos preco sd nv h,
    fun entrada step direcao he hs => hne 4 entrada step direcao he hs (by norm_num)⟩

/-- C10 witness: with entry 2005, step 10 and four targets, the generated
target list has length 4 and is non-empty, and the nearest level generated
for price 2005 has a positive step. -/
theorem C10_gerar_alvos_never_empty_witness :
    (0 : ℚ) < 2005 ∧ (0 : ℚ) < 10 ∧ (0 : ℕ) < 4 ∧
    (gerar_alvos 4 2005 Direcao.COMPRA 10).length = 4 ∧
    gerar_alvos 4 2005 Direcao.VENDA 10 ≠ [] ∧
    gerar_alvos defaultConfig.numero_alvos 2005 Direcao.VENDA 10 ≠ [] :=
  ⟨by norm_num, by norm_num, by norm_num,
   C10_gerar_alvos_never_empty.1 4 2005 10 Direcao.COMPRA (by norm_num) (by norm_num),
   C10_gerar_alvos_never_empty.2.1 4 2005 10 Direcao.VENDA (by norm_num) (by norm_num)
     (by norm_num),
   C10_gerar_alvos_never_empty.2.2.2 2005 10 Direcao.VENDA (by norm_num) (by norm_num)⟩

end OperacionalXauusd

namespace OperacionalXauusd

set_option maxRecDepth 100000 in
set_option maxHeartbeats 4000000 in
/-- Concrete evaluation of the level generator at reference price 2005 with
explicit step 10 (banker's rounding sends 200.5 to the even 200, so the base
is 2000; ties in distance are resolved by generation order, ascending
value). -/
theorem niveis_2005 : get_niveis_psicologicos 2005 (some 10) =
    [⟨2000, 10, "suporte", 5⟩, ⟨2010, 10, "resistencia", 2⟩,
     ⟨1990, 10, "suporte", 2⟩, ⟨2020, 10, "resistencia", 3⟩,
     ⟨1980, 10, "suporte", 3⟩, ⟨2030, 10, "resistencia", 2⟩,
     ⟨1970, 10, "suporte", 2⟩, ⟨2040, 10, "resistencia", 3⟩,
     ⟨1960, 10, "suporte", 3⟩, ⟨2050, 10, "resistencia", 4⟩,
     ⟨1950, 10, "suporte", 4⟩, ⟨2060, 10, "resistencia", 3⟩,
     ⟨1940, 10, "suporte", 3⟩, ⟨2070, 10, "resistencia", 2⟩,
     ⟨1930, 10, "suporte", 2⟩, ⟨2080, 10, "resistencia", 3⟩,
     ⟨1920, 10, "suporte", 3⟩, ⟨2090, 10, "resistencia", 2⟩,
     ⟨1910, 10, "suporte", 2⟩, ⟨2100, 10, "resistencia", 5⟩] := by
  norm_num [get_niveis_psicologicos, nivelCandidates, resolveStep, calcular_forca_nivel,
    identificar_tipo_nivel, ratMultiple, pyRound, isort, insertS, List.range_succ,
    List.filterMap]

/-- C4: for reference price 2005 and step 10 the generator returns exactly
20 levels, in ascending order of distance to 2005, including the base 2000
(strength 5, divisible by 100) and 2010 (strength 2); in general the result
holds at most 20 levels, sorted ascending by distance, each positive, on a
step-multiple offset in -40..40 of `round(reference/step)·step`, typed
support/resistance/both against the reference and graded by the
100/50/20/10 divisibility rule. -/
theorem C4_niveis_psicologicos :
    (get_niveis_psicologicos 2005 (some 10)).length = 20 ∧
    (⟨2000, 10, "suporte", 5⟩ : NivelPsicologico) ∈ get_niveis_psicologicos 2005 (some 10) ∧
    (⟨2010, 10, "resistencia", 2⟩ : NivelPsicologico) ∈ get_niveis_psicologicos 2005 (some 10) ∧
    (get_niveis_psicologicos 2005 (some 10)).Pairwise
      (fun a b => |a.valor - 2005| ≤ |b.valor - 2005|) ∧
    (∀ (preco : ℚ) (sd : Option ℚ), 0 < preco →
      (get_niveis_psicologicos preco sd).length ≤ 20 ∧
      (get_niveis_psicologicos preco sd).Pairwise
        (fun a b => |a.valor - preco| ≤ |b.valor - preco|) ∧
      (∀ nv ∈ get_niveis_psicologicos preco sd,
        0 < nv.valor ∧
        nv.step = resolveStep preco sd ∧
        nv.tipo = identificar_tipo_nivel nv.valor preco ∧
        nv.forca = calcular_forca_nivel nv.valor ∧
        ∃ k : ℤ, -40 ≤ k ∧ k ≤ 40 ∧
          nv.valor = (pyRound (preco / resolveStep preco sd) : ℚ) * resolveStep preco sd
            + (k : ℚ) * resolveStep preco sd)) := by
  refine ⟨?_, ?_, ?_, ?_, ?_⟩
  · rw [niveis_2005]
    rfl
  · rw [niveis_2005]
    exact List.mem_cons_self _ _
  · rw [niveis_2005]
    exact List.mem_cons_of_mem _ (List.mem_cons_self _ _)
  · exact (get_niveis_structure 2005 (some 10)).2.1
  · intro preco sd _
    exact get_niveis_structure preco sd

/-- C4 witness: the general clause instantiated at reference price 2005. -/
theorem C4_niveis_psicologicos_witness :
    (0 : ℚ) < 2005 ∧ (get_niveis_psicologicos 2005 (some 10)).length ≤ 20 :=
  ⟨by norm_num, (C4_niveis_psicologicos.2.2.2.2 2005 (some 10) (by norm_num)).1⟩

end OperacionalXauusd

namespace XauAsiaOandaBuild

/-- Twenty distinct date labels for the constant-series ATR test. -/
def constDates20 : List String :=
  ["d00", "d01", "d02", "d03", "d04", "d05", "d06", "d07", "d08", "d09",
   "d10", "d11", "d12", "d13", "d14", "d15", "d16", "d17", "d18", "d19"]

/-- C6: the ATR(14) estimator — with parallel per-day inputs it returns the
empty mapping whenever fewer than 14 days are supplied; otherwise it maps
`dates[13+j]` to the Wilder value `atrFrom13 j`, whose recurrences are the
claimed ones (day-0 true range `high−low`, subsequent true ranges the
max-of-three, seed at index 13 the mean of the first 14 true ranges, then
`atr = (prev·13 + tr)/14`); and on 20 constant days (high=low=close=100)
every mapped ATR from index 13 on is 0. -/
theorem C6_atr14_estimator :
    (∀ (dates : List String) (high low close : List ℚ),
      high.length = dates.length → low.length = dates.length → close.length = dates.length →
      dates.length < 14 → _atr14_by_date dates high low close = []) ∧
    (∀ (dates : List String) (high low close : List ℚ),
      high.length = dates.length → 14 ≤ dates.length →
      _atr14_by_date dates high low close =
        (List.range (dates.length - 13)).map
          (fun j => (dates.getD (13 + j) "", atrFrom13 high low close j))) ∧
    (∀ high low close : List ℚ,
      atrFrom13 high low close 0 = ((List.range 14).map (trAt high low close)).sum / 14 ∧
      (∀ j : ℕ, atrFrom13 high low close (j + 1)
        = (atrFrom13 high low close j * 13 + trAt high low close (14 + j)) / 14) ∧
      trAt high low close 0 = high.getD 0 0 - low.getD 0 0 ∧
      (∀ i : ℕ, trAt high low close (i + 1) =
        max (high.getD (i + 1) 0 - low.getD (i + 1) 0)
          (max |high.getD (i + 1) 0 - close.getD i 0|
               |low.getD (i + 1) 0 - close.getD i 0|))) ∧
    _atr14_by_date constDates20 (List.replicate 20 100) (List.replicate 20 100)
        (List.replicate 20 100) =
      [("d13", 0), ("d14", 0), ("d15", 0), ("d16", 0), ("d17", 0), ("d18", 0), ("d19", 0)] := by
  refine ⟨?_, ?_, ?_, ?_⟩
  · intro dates high low close hh _ _ hlt
    unfold _atr14_by_date
    by_cases hd : dates = []
    · simp [hd]
    · have : high.length < 14 := by rw [hh]; exact hlt
      simp [hd, this]
  · intro dates high low close hh hge
    unfold _atr14_by_date
    have hd : ¬ dates = [] := by
      intro h
      rw [h] at hge
      simp at hge
    have hlt : ¬ high.length < 14 := by rw [hh]; omega
    simp only [hd, if_false, hlt, hh]
    rw [if_neg (show ¬ dates.length < 14 by omega)]
  · exact fun high low close => ⟨rfl, fun j => rfl, rfl, fun i => rfl⟩
  · unfold _atr14_by_date
    rw [if_neg (show ¬ constDates20 = [] by decide),
      if_neg (show ¬ (List.replicate 20 (100 : ℚ)).length < 14 by norm_num)]
    norm_num [constDates20, atrFrom13, trAt, List.replicate, List.range_succ]

/-- C6 witness: the short-history clause applied to a single day, and the
well-formed clause applied to the 20-day constant series. -/
theorem C6_atr14_estimator_witness :
    (((1 : ℕ) = 1 ∧ (1 : ℕ) = 1 ∧ (1 : ℕ) = 1 ∧ (1 : ℕ) < 14) ∧
      _atr14_by_date ["a"] [101] [99] [100] = []) ∧
    ((List.replicate 20 (100 : ℚ)).length = constDates20.length ∧ 14 ≤ constDates20.length ∧
      _atr14_by_date constDates20 (List.replicate 20 100) (List.replicate 20 100)
          (List.replicate 20 100) =
        (List.range (constDates20.length - 13)).map
          (fun j => (constDates20.getD (13 + j) "",
            atrFrom13 (List.replicate 20 100) (List.replicate 20 100)
              (List.replicate 20 100) j))) :=
  ⟨⟨⟨rfl, rfl, rfl, by norm_num⟩,
    C6_atr14_estimator.1 ["a"] [101] [99] [100] rfl rfl rfl (by norm_num)⟩,
   ⟨rfl, by norm_num [constDates20],
    C6_atr14_estimator.2.1 constDates20 (List.replicate 20 100) (List.replicate 20 100)
      (List.replicate 20 100) rfl (by norm_num [constDates20])⟩⟩

end XauAsiaOandaBuild

namespace TradePatternAnalysis

/-- A trade sample missing its required fields in the sense of the spec:
entry, stop and target are all 0. -/
def invalidSample : TradeSample :=
  ⟨"t1", "XAUUSD", 15, "2024-01-02T03:04:05", "2024-01-02T03:04:05Z", "LONG",
   none, none, none, none, none, none, 0, 0, 0, none, none, none, none, none,
   false, ""⟩

/-- C3 (the code lacks the required-field handling the spec demands):
`extract_features` maps every sample, including one whose entry/stop/target
are all 0, to a feature row — it returns one row per input trade with the
degenerate row carrying risk = reward = rr = 0 — and its only output is the
feature list itself, so no skipped-row count is surfaced to the caller. -/
theorem C3_extract_features_no_exclusion :
    (extract_features [invalidSample] 10).length = 1 ∧
    (extract_features [invalidSample] 10).map TradeFeatures.trade_id = ["t1"] ∧
    (extract_features [invalidSample] 10).map TradeFeatures.risk = [0] ∧
    (extract_features [invalidSample] 10).map TradeFeatures.rr = [0] ∧
    (∀ (trades : List TradeSample) (step : ℚ),
      (extract_features trades step).length = trades.length) := by
  refine ⟨?_, ?_, ?_, ?_, ?_⟩
  · rfl
  · rfl
  · norm_num [extract_features, invalidSample]
  · norm_num [extract_features, invalidSample]
  · intro trades step
    unfold extract_features
    rw [List.length_map]

/-- A minimal feature row for the tie-break example (all optional data
absent, unit risk/reward, differing only in `trade_id` and `rr`). -/
def tieRow (id : String) (rr : ℚ) : TradeFeatures :=
  ⟨id, 0, 0, 1, none, none, none, none, rr, 1, 1, none, none, none, none, none, none, none⟩

/-- C7: nearest-neighbour ranking — missing-versus-present ATR-normalised
fields are penalised (+2 for risk, +2 for reward, +1 for level distance on
top of the weighted squared Euclidean distance), so a candidate identical to
the target except for a defined ATR-normalised risk is strictly farther than
an identical pair; the returned list excludes the target id, is ascending in
distance, consists of the k smallest distances, and breaks ties by original
iteration order. -/
theorem C7_nearest_neighbor_ranking :
    (∀ (t : TradeFeatures) (v : ℚ), t.risk_atr = none →
      dist2 defaultWeights t { t with risk_atr := some v } = (6/5) * v ^ 2 + 2 ∧
      dist2 defaultWeights { t with risk_atr := some v } { t with risk_atr := some v } = 0 ∧
      dist2 defaultWeights { t with risk_atr := some v } { t with risk_atr := some v }
        < dist2 defaultWeights t { t with risk_atr := some v }) ∧
    (∀ (t : TradeFeatures) (v : ℚ), t.reward_atr = none →
      dist2 defaultWeights t { t with reward_atr := some v } = (6/5) * v ^ 2 + 2) ∧
    (∀ (t : TradeFeatures) (v : ℚ), t.entry_level_dist_atr = none →
      dist2 defaultWeights t { t with entry_level_dist_atr := some v } = v ^ 2 + 1) ∧
    (∀ (features : List TradeFeatures) (target_id : String) (k : ℕ)
        (weights : Option (List ℚ)),
      (∀ p ∈ nearest_neighbors features target_id k weights, p.1 ≠ target_id) ∧
      (nearest_neighbors features target_id k weights).Pairwise
        (fun a b => a.2 ≤ b.2)) ∧
    (∀ (features : List TradeFeatures) (target_id : String) (k : ℕ)
        (weights : Option (List ℚ)) (target : TradeFeatures),
      (by_id features).lookup target_id = some target →
      ∃ rest : List (String × ℚ),
        (nearest_neighbors features target_id k weights ++ rest).Perm
          (nnCandidates features target_id (resolveWeights weights) target) ∧
        ∀ p ∈ nearest_neighbors features target_id k weights, ∀ q ∈ rest, p.2 ≤ q.2) ∧
    nearest_neighbors [tieRow "T" 0, tieRow "A" 1, tieRow "B" 1] "T" 8 none =
      [("A", 4/5), ("B", 4/5)] := by
  refine ⟨?_, ?_, ?_, ?_, ?_, ?_⟩
  · intro t v ht
    have h1 : dist2 defaultWeights t { t with risk_atr := some v } = (6/5) * v ^ 2 + 2 := by
      simp [dist2, _vec, defaultWeights, ht]
      try ring
    have h2 : dist2 defaultWeights { t with risk_atr := some v }
        { t with risk_atr := some v } = 0 := by
      simp [dist2, _vec, defaultWeights]
      try ring
    refine ⟨h1, h2, ?_⟩
    rw [h1, h2]
    positivity
  · intro t v ht
    simp [dist2, _vec, defaultWeights, ht]
    try ring
  · intro t v ht
    simp [dist2, _vec, defaultWeights, ht]
    try ring
  · intro features target_id k weights
    unfold nearest_neighbors
    cases hby : (by_id features).lookup target_id with
    | none => simp
    | some target =>
      constructor
      · intro p hp
        have h1 := List.mem_of_mem_take hp
        rw [mem_isort] at h1
        unfold nnCandidates at h1
        rcases List.mem_map.mp h1 with ⟨f, hf, hfp⟩
        rw [← hfp]
        simpa using (List.mem_filter.mp hf).2
      · have hs := isort_pairwise (fun a b : String × ℚ => decide (a.2 ≤ b.2))
          (fun a b => by
            rcases le_total a.2 b.2 with h | h
            · exact Or.inl (by simpa using h)
            · exact Or.inr (by simpa using h))
          (fun a b c hab hbc => by
            simp only [decide_eq_true_eq] at hab hbc ⊢
            exact le_trans hab hbc)
          (nnCandidates features target_id (resolveWeights weights) target)
        have hp := hs.imp (fun h => by simpa using h)
        exact List.Pairwise.sublist (List.take_sublist k _) hp
  · intro features target_id k weights target hby
    refine ⟨(isort (fun a b : String × ℚ => decide (a.2 ≤ b.2))
      (nnCandidates features target_id (resolveWeights weights) target)).drop k, ?_, ?_⟩
    · unfold nearest_neighbors
      rw [hby]
      rw [List.take_append_drop]
      exact isort_perm _ _
    · intro p hp q hq
      unfold nearest_neighbors at hp
      rw [hby] at hp
      have hs := isort_pairwise (fun a b : String × ℚ => decide (a.2 ≤ b.2))
        (fun a b => by
          rcases le_total a.2 b.2 with h | h
          · exact Or.inl (by simpa using h)
          · exact Or.inr (by simpa using h))
        (fun a b c hab hbc => by
          simp only [decide_eq_true_eq] at hab hbc ⊢
          exact le_trans hab hbc)
        (nnCandidates features target_id (resolveWeights weights) target)
      have hpw := hs.imp (fun h => by simpa using h)
      exact pairwise_take_drop k hpw p hp q hq
  · norm_num [nearest_neighbors, by_id, nnCandidates, resolveWeights, dictInsert,
      List.lookup, tieRow, dist2, _vec, defaultWeights, isort, insertS, pyUpper]

/-- C7 witness: the presence-penalty clauses applied to a concrete feature
row, and the k-smallest clause applied to the concrete tie example. -/
theorem C7_nearest_neighbor_ranking_witness :
    ((tieRow "T" 0).risk_atr = none ∧
      dist2 defaultWeights (tieRow "T" 0) { tieRow "T" 0 with risk_atr := some (1/2) }
        = (6/5) * (1/2 : ℚ) ^ 2 + 2) ∧
    ((by_id [tieRow "T" 0, tieRow "A" 1, tieRow "B" 1]).lookup "T" = some (tieRow "T" 0) ∧
      ∃ rest : List (String × ℚ),
        (nearest_neighbors [tieRow "T" 0, tieRow "A" 1, tieRow "B" 1] "T" 8 none
            ++ rest).Perm
          (nnCandidates [tieRow "T" 0, tieRow "A" 1, tieRow "B" 1] "T"
            (resolveWeights none) (tieRow "T" 0)) ∧
        ∀ p ∈ nearest_neighbors [tieRow "T" 0, tieRow "A" 1, tieRow "B" 1] "T" 8 none,
          ∀ q ∈ rest, p.2 ≤ q.2) :=
  ⟨⟨rfl, (C7_nearest_neighbor_ranking.1 (tieRow "T" 0) (1/2) rfl).1⟩,
   ⟨rfl, C7_nearest_neighbor_ranking.2.2.2.2.1
      [tieRow "T" 0, tieRow "A" 1, tieRow "B" 1] "T" 8 none (tieRow "T" 0) rfl⟩⟩

end TradePatternAnalysis

namespace XauEntryHeuristics

/-- For any non-empty history the returned `rr` is the post-snap effective
risk:reward, floored by the undo branch: it is either `min_rr` itself or at
worst `min_rr − 1e-9`. -/
theorem finishPlan_rr_floor (direction : String) (entry stop tp1 min_rr stop_distance : ℚ)
    (sizing : Option ℚ × Option ℚ) :
    min_rr - 1/1000000000 ≤ (finishPlan direction entry stop tp1 min_rr stop_distance sizing).rr := by
  unfold finishPlan
  simp only
  by_cases h1 : (0:ℚ) < |entry - stop|
  · simp only [h1, if_true]
    by_cases h2 : |tp1 - entry| / |entry - stop| + 1/1000000000 < min_rr
    · simp only [h2, if_true]
      linarith
    · simp only [h2, if_false]
      push_neg at h2
      linarith
  · simp only [h1, if_false]
    by_cases h2 : (0:ℚ) + 1/1000000000 < min_rr
    · simp only [h2, if_true]
      linarith
    · simp only [h2, if_false]
      push_neg at h2
      linarith

theorem plan_core_rr_floor (history : List HistRow)
    (reference_price round_step round_proximity min_rr : ℚ)
    (account_balance risk_percent : Option ℚ) (contract_size : ℚ) :
    min_rr - 1/1000000000 ≤ (_plan_core history reference_price round_step round_proximity
      min_rr account_balance risk_percent contract_size).rr := by
  unfold _plan_core
  apply finishPlan_rr_floor

/-- C1 as stated is refuted by the empty history: the degenerate plan has
`rr = 0 < 2 − 1e-6`. -/
theorem C1_rr_floor_counterexample :
    (build_entry_plan [] 2005 10 (3/2) 2 none none 100).rr = 0 ∧
    ¬ ((2 : ℚ) - 1/1000000 ≤ (build_entry_plan [] 2005 10 (3/2) 2 none none 100).rr) := by
  constructor
  · rfl
  · rw [show (build_entry_plan [] 2005 10 (3/2) 2 none none 100).rr = 0 from rfl]
    norm_num

/-- C1 amended: for every NON-empty history, any reference price, rounding
step, proximity and sizing inputs, with `min_rr = 2` the returned plan's
effective risk:reward is at least `2 − 1e-6` (the snap is re-verified and
undone if it would violate the floor beyond the 1e-9 tolerance). -/
theorem C1_rr_floor (history : List HistRow)
    (reference_price round_step round_proximity : ℚ)
    (account_balance risk_percent : Option ℚ) (contract_size : ℚ)
    (hne : history ≠ []) :
    (2 : ℚ) - 1/1000000 ≤ (build_entry_plan history reference_price round_step
      round_proximity 2 account_balance risk_percent contract_size).rr := by
  match history, hne with
  | h :: t, _ =>
    unfold build_entry_plan
    have := plan_core_rr_floor (h :: t) reference_price round_step round_proximity 2
      account_balance risk_percent contract_size
    linarith

/-- C1 witness: the amended floor applied to a one-row history. -/
theorem C1_rr_floor_witness :
    ([(⟨none, none, none, none, none⟩ : HistRow)] ≠ []) ∧
    (2 : ℚ) - 1/1000000 ≤ (build_entry_plan [⟨none, none, none, none, none⟩]
      2005 10 (3/2) 2 none none 100).rr :=
  ⟨by simp, C1_rr_floor [⟨none, none, none, none, none⟩] 2005 10 (3/2) none none 100
    (by simp)⟩

end XauEntryHeuristics

namespace OperacionalXauusd

/-- Any signal produced by one scan iteration under the default
configuration records the scanned label and level, has its stop equal to the
(re-)placed structural stop, and has risk at least 10 and at most
65 + 0.005 (the half-cent slack comes from rounding the re-placed stop to
two decimals). -/
theorem tentar_candidato_props (preco : ℚ) (candle : Candle) (ctx : Contexto)
    (step_eff : ℚ) (label : String) (nivel : NivelPsicologico) (d : String)
    (sig : SinalOperacional)
    (h : tentar_candidato defaultConfig preco candle ctx step_eff label nivel d = some sig) :
    sig.janela = label ∧
    sig.nivel_testado = nivel.valor ∧
    sig.entrada = pyRound2 preco ∧
    10 ≤ sig.risco_pontos ∧
    sig.risco_pontos ≤ 65 + 1/200 ∧
    (sig.stop = pyRound2 (if 65 < risco_pontos preco (calcular_stop sig.direcao sig.nivel_testado ctx 35) then
        pyRound2 (if sig.direcao = Direcao.VENDA then preco + 65 else preco - 65)
      else calcular_stop sig.direcao sig.nivel_testado ctx 35)) ∧
    (sig.risco_pontos = (if 65 < risco_pontos preco (calcular_stop sig.direcao sig.nivel_testado ctx 35) then
        risco_pontos preco (pyRound2 (if sig.direcao = Direcao.VENDA then preco + 65 else preco - 65))
      else risco_pontos preco (calcular_stop sig.direcao sig.nivel_testado ctx 35))) := by
  unfold tentar_candidato at h
  simp only [defaultConfig] at h
  set dir := (if d = "COMPRA" then Direcao.COMPRA else Direcao.VENDA) with hdir
  split at h
  · exact absurd h (by simp)
  · split at h
    · exact absurd h (by simp)
    · rename_i hrej hlow
      split at h
      · exact absurd h (by simp)
      · rw [Option.some.injEq] at h
        subst h
        simp only
        set r0 := risco_pontos preco (calcular_stop dir nivel.valor ctx 35) with hr0
        refine ⟨trivial, trivial, trivial, ?_, ?_, trivial, ?_⟩
        · by_cases hc : 65 < r0
          · simp only [if_pos hc]
            by_cases hd : dir = Direcao.VENDA
            · simp only [if_pos hd]
              have hb := abs_le.mp (pyRound2_dist (preco + 65))
              unfold risco_pontos
              calc (10 : ℚ) ≤ 65 - 1/200 := by norm_num
                _ ≤ -(preco - pyRound2 (preco + 65)) := by linarith [hb.1, hb.2]
                _ ≤ |preco - pyRound2 (preco + 65)| := neg_le_abs _
            · simp only [if_neg hd]
              have hb := abs_le.mp (pyRound2_dist (preco - 65))
              unfold risco_pontos
              calc (10 : ℚ) ≤ 65 - 1/200 := by norm_num
                _ ≤ preco - pyRound2 (preco - 65) := by linarith [hb.1, hb.2]
                _ ≤ |preco - pyRound2 (preco - 65)| := le_abs_self _
          · simp only [if_neg hc]
            exact le_of_not_lt hlow
        · by_cases hc : 65 < r0
          · simp only [if_pos hc]
            by_cases hd : dir = Direcao.VENDA
            · simp only [if_pos hd]
              have hb := abs_le.mp (pyRound2_dist (preco + 65))
              unfold risco_pontos
              rw [abs_le]
              constructor <;> linarith [hb.1, hb.2]
            · simp only [if_neg hd]
              have hb := abs_le.mp (pyRound2_dist (preco - 65))
              unfold risco_pontos
              rw [abs_le]
              constructor <;> linarith [hb.1, hb.2]
          · simp only [if_neg hc]
            calc r0 ≤ 65 := le_of_not_lt hc
              _ ≤ 65 + 1/200 := by norm_num
        · by_cases hc : 65 < r0
          · simp only [if_pos hc]
          · simp only [if_neg hc]

end OperacionalXauusd

namespace OperacionalXauusd

/-- Lifts `tentar_candidato_props` through the first-match scan of
`resolve_sinal`. -/
theorem resolve_sinal_props (preco : ℚ) (candle : Candle) (ctx : Contexto)
    (de : Option String) (sd : Option ℚ) (label : String) (jd : Option String)
    (sig : SinalOperacional)
    (h : resolve_sinal defaultConfig preco candle ctx de sd label jd = some sig) :
    sig.janela = label ∧
    sig.entrada = pyRound2 preco ∧
    10 ≤ sig.risco_pontos ∧
    sig.risco_pontos ≤ 65 + 1/200 ∧
    (sig.stop = pyRound2 (if 65 < risco_pontos preco (calcular_stop sig.direcao sig.nivel_testado ctx 35) then
        pyRound2 (if sig.direcao = Direcao.VENDA then preco + 65 else preco - 65)
      else calcular_stop sig.direcao sig.nivel_testado ctx 35)) ∧
    (sig.risco_pontos = (if 65 < risco_pontos preco (calcular_stop sig.direcao sig.nivel_testado ctx 35) then
        risco_pontos preco (pyRound2 (if sig.direcao = Direcao.VENDA then preco + 65 else preco - 65))
      else risco_pontos preco (calcular_stop sig.direcao sig.nivel_testado ctx 35))) := by
  unfold resolve_sinal at h
  split at h
  · exact absurd h (by simp)
  · rcases List.exists_of_findSome?_eq_some h with ⟨nivel, _, h2⟩
    rcases List.exists_of_findSome?_eq_some h2 with ⟨d, _, h3⟩
    have hp := tentar_candidato_props _ _ _ _ _ _ _ _ h3
    exact ⟨hp.1, hp.2.2.1, hp.2.2.2.1, hp.2.2.2.2.1, hp.2.2.2.2.2.1, hp.2.2.2.2.2.2⟩

/-- C5 amended: every signal the engine returns under the default
configuration has its stop placed by `calcular_stop` (buy:
`min(recent_low − 2, level − 35)`; sell: `max(recent_high + 2, level + 35)`,
rounded to cents) and then re-placed at `round(price ∓ 65, 2)` when the
structural risk exceeds 65; a candidate with risk below 10 is rejected, and
the recorded risk lies in `[10, 65 + 0.005]` — the upper bound carries a
half-cent slack because the re-placed stop is rounded to two decimals, so
the exact bound 65 claimed in the spec can be exceeded by up to 0.005. -/
theorem C5_stop_and_risk_band (st : EngineState) (preco : ℚ) (candle : Candle)
    (ctx : Contexto) (agora : Time) (day_key : ℕ) (de : Option String) (sd : Option ℚ)
    (sig : SinalOperacional) (st' : EngineState)
    (h : analisar_oportunidade defaultConfig st preco candle ctx agora day_key de sd
      = (some sig, st')) :
    sig.entrada = pyRound2 preco ∧
    10 ≤ sig.risco_pontos ∧
    sig.risco_pontos ≤ 65 + 1/200 ∧
    (sig.stop = pyRound2 (if 65 < risco_pontos preco (calcular_stop sig.direcao sig.nivel_testado ctx 35) then
        pyRound2 (if sig.direcao = Direcao.VENDA then preco + 65 else preco - 65)
      else calcular_stop sig.direcao sig.nivel_testado ctx 35)) ∧
    (sig.risco_pontos = (if 65 < risco_pontos preco (calcular_stop sig.direcao sig.nivel_testado ctx 35) then
        risco_pontos preco (pyRound2 (if sig.direcao = Direcao.VENDA then preco + 65 else preco - 65))
      else risco_pontos preco (calcular_stop sig.direcao sig.nivel_testado ctx 35))) := by
  unfold analisar_oportunidade at h
  rcases hj : janela_atual defaultConfig agora with ⟨b, jl, jd⟩
  rw [hj] at h
  cases b
  · simp at h
  · cases jl with
    | none => simp at h
    | some label =>
      simp only at h
      split at h
      · simp at h
      · rcases hres : resolve_sinal defaultConfig preco candle ctx de sd label jd with _ | sig0
        · rw [hres] at h
          simp at h
        · rw [hres] at h
          simp only [Prod.mk.injEq, Option.some.injEq] at h
          have hs : sig0 = sig := h.1
          subst hs
          have hp := resolve_sinal_props _ _ _ _ _ _ _ _ hres
          exact ⟨hp.2.1, hp.2.2.1, hp.2.2.2.1, hp.2.2.2.2.1, hp.2.2.2.2.2⟩

end OperacionalXauusd

namespace OperacionalXauusd

theorem pyUpper_venda : pyUpper "VENDA" = "VENDA" := by decide

theorem pyUpper_compra : pyUpper "COMPRA" = "COMPRA" := by decide

theorem pyUpper_ambas : pyUpper "AMBAS" = "AMBAS" := by decide

/-- At 23:30 the engine is inside the kill zone, in the first priority
window (23:20-00:30, expected direction sell). -/
theorem janela_atual_2330 :
    janela_atual defaultConfig ⟨23, 30⟩ = (true, some "23:20-00:30", some "VENDA") := by
  decide

set_option maxRecDepth 100000 in
set_option maxHeartbeats 40000000 in
/-- Concrete evaluation of the level generator at reference price 2005.006
with step 10: the base is 2010 (200.5006 rounds up), so 2010 is the nearest
level. -/
theorem niveis_2005006 : get_niveis_psicologicos (1002503/500) (some 10) =
    [⟨2010, 10, "resistencia", 2⟩, ⟨2000, 10, "suporte", 5⟩,
     ⟨2020, 10, "resistencia", 3⟩, ⟨1990, 10, "suporte", 2⟩,
     ⟨2030, 10, "resistencia", 2⟩, ⟨1980, 10, "suporte", 3⟩,
     ⟨2040, 10, "resistencia", 3⟩, ⟨1970, 10, "suporte", 2⟩,
     ⟨2050, 10, "resistencia", 4⟩, ⟨1960, 10, "suporte", 3⟩,
     ⟨2060, 10, "resistencia", 3⟩, ⟨1950, 10, "suporte", 4⟩,
     ⟨2070, 10, "resistencia", 2⟩, ⟨1940, 10, "suporte", 3⟩,
     ⟨2080, 10, "resistencia", 3⟩, ⟨1930, 10, "suporte", 2⟩,
     ⟨2090, 10, "resistencia", 2⟩, ⟨1920, 10, "suporte", 3⟩,
     ⟨2100, 10, "resistencia", 5⟩, ⟨1910, 10, "suporte", 2⟩] := by
  norm_num [get_niveis_psicologicos, nivelCandidates, resolveStep, calcular_forca_nivel,
    identificar_tipo_nivel, ratMultiple, pyRound, isort, insertS, List.range_succ,
    List.filterMap, abs_of_nonneg, abs_of_nonpos]

theorem venda_eq_compra_iff : (("VENDA" : String) = "COMPRA") ↔ False := by decide

theorem venda_eq_empty_iff : (("VENDA" : String) = "") ↔ False := by decide

theorem venda_eq_ambas_iff : (("VENDA" : String) = "AMBAS") ↔ False := by decide

theorem venda_eq_venda_iff : (("VENDA" : String) = "VENDA") ↔ True := by decide

theorem dir_venda_eq_compra_iff : (Direcao.VENDA = Direcao.COMPRA) ↔ False := by decide

theorem dir_if_venda :
    (if ("VENDA" : String) = "COMPRA" then Direcao.COMPRA else Direcao.VENDA)
      = Direcao.VENDA := by decide

set_option maxRecDepth 8000 in
/-- At price 2005.006 the nearest level 2010 is not touched by the test
candle (its high 2009 is below 2009.5), so the scan skips it. -/
theorem tentar_2005006_2010 :
    tentar_candidato defaultConfig (1002503/500) ⟨2004, 2009, 1999, 2000⟩
      ⟨none, some 2100⟩ 10 "23:20-00:30" ⟨2010, 10, "resistencia", 2⟩ "VENDA" = none := by
  norm_num [tentar_candidato, detectar_rejeicao, defaultConfig]

set_option maxRecDepth 8000 in
set_option maxHeartbeats 2000000 in
/-- At price 2005.006 level 2000 fires: upper wick 5 gives strength 2.5, the
structural stop `max(2100 + 2, 2000 + 35) = 2102` puts the risk at
96.994 > 65, so the stop is re-placed at `round(2005.006 + 65, 2) = 2070.01`
and the recorded risk is 65.004 — above the configured maximum 65. -/
theorem tentar_2005006_2000 :
    tentar_candidato defaultConfig (1002503/500) ⟨2004, 2009, 1999, 2000⟩
      ⟨none, some 2100⟩ 10 "23:20-00:30" ⟨2000, 10, "suporte", 5⟩ "VENDA" =
    some ⟨Direcao.VENDA, 200501/100, 207001/100, [2000, 1990, 1980, 1970], 2000, 5/2,
      16251/250, "23:20-00:30"⟩ := by
  norm_num [tentar_candidato, dir_if_venda, dir_venda_eq_compra_iff, venda_eq_compra_iff,
    venda_eq_venda_iff, detectar_rejeicao, calcular_stop, risco_pontos,
    gerar_alvos, defaultConfig, pyRound2, pyRound, min_def, max_def, Option.some_ne_none,
    List.cons_ne_nil, abs_of_nonneg, abs_of_nonpos, List.range', List.filterMap,
    -Int.self_sub_floor]

set_option maxRecDepth 8000 in
set_option maxHeartbeats 2000000 in
/-- Concrete evaluation of the candidate scan at price 2005.006. -/
theorem resolve_2005006 :
    resolve_sinal defaultConfig (1002503/500) ⟨2004, 2009, 1999, 2000⟩
      ⟨none, some 2100⟩ none (some 10) "23:20-00:30" (some "VENDA") =
    some ⟨Direcao.VENDA, 200501/100, 207001/100, [2000, 1990, 1980, 1970], 2000, 5/2,
      16251/250, "23:20-00:30"⟩ := by
  norm_num [resolve_sinal, niveis_2005006, pyUpper_venda, pyOrStr, venda_eq_compra_iff,
    venda_eq_empty_iff, venda_eq_ambas_iff, venda_eq_venda_iff,
    List.findSome?_cons, tentar_2005006_2010, tentar_2005006_2000]

end OperacionalXauusd

namespace OperacionalXauusd

theorem defaultConfig_max_ops : defaultConfig.max_operacoes_por_janela = 2 := rfl

theorem reset_initial_day0 :
    _reset_if_new_day initialState 0 = ⟨some 0, []⟩ := rfl

/-- C5 counterexample: at price 2005.006 with recent high 2100 the engine
returns a signal whose recorded risk is 65.004, strictly above the
configured `stop_maximo = 65` — the claim that the risk always lies within
`[stop_apertado_limite, stop_maximo]` is false, because the re-placed stop
`round(price + 65, 2) = 2070.01` moves by up to half a cent. -/
theorem C5_risk_band_counterexample :
    (analisar_oportunidade defaultConfig initialState (1002503/500)
      ⟨2004, 2009, 1999, 2000⟩ ⟨none, some 2100⟩ ⟨23, 30⟩ 0 none (some 10)).1 =
      some ⟨Direcao.VENDA, 200501/100, 207001/100, [2000, 1990, 1980, 1970], 2000, 5/2,
        16251/250, "23:20-00:30"⟩ ∧
    defaultConfig.stop_maximo = 65 ∧
    defaultConfig.stop_apertado_limite = 10 ∧
    (65 : ℚ) < 16251/250 := by
  refine ⟨?_, rfl, rfl, by norm_num⟩
  norm_num [analisar_oportunidade, janela_atual_2330, reset_initial_day0,
    resolve_2005006, defaultConfig_max_ops, List.lookup]

/-- C5 witness for the amended band: the properties instantiated on the
concrete 2005.006 signal. -/
theorem C5_stop_and_risk_band_witness :
    (analisar_oportunidade defaultConfig initialState (1002503/500)
      ⟨2004, 2009, 1999, 2000⟩ ⟨none, some 2100⟩ ⟨23, 30⟩ 0 none (some 10)) =
      (some ⟨Direcao.VENDA, 200501/100, 207001/100, [2000, 1990, 1980, 1970], 2000, 5/2,
        16251/250, "23:20-00:30"⟩,
       ⟨some 0, [("23:20-00:30", 1)]⟩) ∧
    (10 : ℚ) ≤ (16251/250 : ℚ) ∧ (16251/250 : ℚ) ≤ 65 + 1/200 := by
  have heval : (analisar_oportunidade defaultConfig initialState (1002503/500)
      ⟨2004, 2009, 1999, 2000⟩ ⟨none, some 2100⟩ ⟨23, 30⟩ 0 none (some 10)) =
      (some ⟨Direcao.VENDA, 200501/100, 207001/100, [2000, 1990, 1980, 1970], 2000, 5/2,
        16251/250, "23:20-00:30"⟩,
       ⟨some 0, [("23:20-00:30", 1)]⟩) := by
    norm_num [analisar_oportunidade, janela_atual_2330, reset_initial_day0,
      resolve_2005006, defaultConfig_max_ops, List.lookup, dictInsert]
  have hp := C5_stop_and_risk_band initialState (1002503/500)
    ⟨2004, 2009, 1999, 2000⟩ ⟨none, some 2100⟩ ⟨23, 30⟩ 0 none (some 10) _ _ heval
  exact ⟨heval, hp.2.1, hp.2.2.1⟩

end OperacionalXauusd

namespace OperacionalXauusd

/-- One call to `analisar_oportunidade` bundled as data (everything the
source reads besides the engine state). -/
structure CallInput where
  preco_atual : ℚ
  candle : Candle
  contexto : Contexto
  agora : Time
  day_key : ℕ
  direcao_esperada : Option String
  step_dia : Option ℚ

def stepCall (cfg : ConfiguracaoOperacional) (st : EngineState) (inp : CallInput) :
    Option SinalOperacional × EngineState :=
  analisar_oportunidade cfg st inp.preco_atual inp.candle inp.contexto inp.agora
    inp.day_key inp.direcao_esperada inp.step_dia

/-- The engine state after a sequence of calls. -/
def runCalls (cfg : ConfiguracaoOperacional) (st : EngineState) : List CallInput → EngineState
  | [] => st
  | inp :: rest => runCalls cfg (stepCall cfg st inp).2 rest

theorem reset_same (st : EngineState) (d : ℕ) (h : st.day_key = some d) :
    _reset_if_new_day st d = st := by
  unfold _reset_if_new_day
  rw [if_neg]
  simp [h]

theorem reset_bounded (cfg : ConfiguracaoOperacional) (st : EngineState) (d : ℕ)
    (h : ∀ p ∈ st.ops_by_window, p.2 ≤ cfg.max_operacoes_por_janela) :
    ∀ p ∈ (_reset_if_new_day st d).ops_by_window, p.2 ≤ cfg.max_operacoes_por_janela := by
  unfold _reset_if_new_day
  split
  · intro q hq
    simp at hq
  · exact h

theorem stepCall_bounded (cfg : ConfiguracaoOperacional) (st : EngineState) (inp : CallInput)
    (h : ∀ p ∈ st.ops_by_window, p.2 ≤ cfg.max_operacoes_por_janela) :
    ∀ p ∈ (stepCall cfg st inp).2.ops_by_window, p.2 ≤ cfg.max_operacoes_por_janela := by
  intro p hp
  unfold stepCall analisar_oportunidade at hp
  rcases hj : janela_atual cfg inp.agora with ⟨b, jl, jd⟩
  rw [hj] at hp
  have hreset := reset_bounded cfg st inp.day_key h
  cases b
  · simp only at hp
    exact h p hp
  · cases jl with
    | none =>
      simp only at hp
      exact hreset p hp
    | some label =>
      simp only at hp
      rcases hres : resolve_sinal cfg inp.preco_atual inp.candle inp.contexto
          inp.direcao_esperada inp.step_dia label jd with _ | sig0 <;>
        rw [hres] at hp <;> simp only at hp
      · split at hp
        · exact hreset p hp
        · exact hreset p hp
      · split at hp
        · exact hreset p hp
        · rename_i hquota
          rcases mem_dictInsert _ _ _ p hp with hp' | hp'
          · subst hp'
            simp only
            omega
          · exact hreset p hp'

theorem runCalls_bounded (cfg : ConfiguracaoOperacional) (calls : List CallInput) :
    ∀ p ∈ (runCalls cfg initialState calls).ops_by_window,
      p.2 ≤ cfg.max_operacoes_por_janela := by
  have haux : ∀ (cs : List CallInput) (st : EngineState),
      (∀ p ∈ st.ops_by_window, p.2 ≤ cfg.max_operacoes_por_janela) →
      ∀ p ∈ (runCalls cfg st cs).ops_by_window, p.2 ≤ cfg.max_operacoes_por_janela := by
    intro cs
    induction cs with
    | nil => intro st h; exact h
    | cons inp rest ih =>
      intro st h
      exact ih _ (stepCall_bounded cfg st inp h)
  exact haux calls initialState (by intro p hp; simp [initialState] at hp)

theorem tentar_candidato_janela (cfg : ConfiguracaoOperacional) (preco : ℚ) (candle : Candle)
    (ctx : Contexto) (step_eff : ℚ) (label : String) (nivel : NivelPsicologico) (d : String)
    (sig : SinalOperacional)
    (h : tentar_candidato cfg preco candle ctx step_eff label nivel d = some sig) :
    sig.janela = label := by
  unfold tentar_candidato at h
  set dir := (if d = "COMPRA" then Direcao.COMPRA else Direcao.VENDA) with hdir
  simp only at h
  split at h
  · exact absurd h (by simp)
  · split at h
    · exact absurd h (by simp)
    · split at h
      · exact absurd h (by simp)
      · rw [Option.some.injEq] at h
        subst h
        rfl

theorem resolve_sinal_janela (cfg : ConfiguracaoOperacional) (preco : ℚ) (candle : Candle)
    (ctx : Contexto) (de : Option String) (sd : Option ℚ) (label : String)
    (jd : Option String) (sig : SinalOperacional)
    (h : resolve_sinal cfg preco candle ctx de sd label jd = some sig) :
    sig.janela = label := by
  unfold resolve_sinal at h
  split at h
  · exact absurd h (by simp)
  · rcases List.exists_of_findSome?_eq_some h with ⟨nivel, _, h2⟩
    rcases List.exists_of_findSome?_eq_some h2 with ⟨d, _, h3⟩
    exact tentar_candidato_janela _ _ _ _ _ _ _ _ _ h3

end OperacionalXauusd

namespace OperacionalXauusd

/-- With an unchanged day key the counters are never reset: a call that
returns no signal leaves the state untouched, and a successful call only
replaces the resolved window's count by its previous value plus one. -/
theorem stepCall_same_day (cfg : ConfiguracaoOperacional) (st : EngineState)
    (inp : CallInput) (hday : st.day_key = some inp.day_key) :
    ((stepCall cfg st inp).1 = none → (stepCall cfg st inp).2 = st) ∧
    (∀ sig, (stepCall cfg st inp).1 = some sig →
      (stepCall cfg st inp).2 = ⟨st.day_key, dictInsert st.ops_by_window sig.janela
        ((st.ops_by_window.lookup sig.janela).getD 0 + 1)⟩) := by
  have hst1 := reset_same st inp.day_key hday
  unfold stepCall analisar_oportunidade
  rcases hj : janela_atual cfg inp.agora with ⟨b, jl, jd⟩
  cases b
  · simp only
    refine ⟨fun _ => by first | rfl | trivial, fun sig hs => absurd hs (by simp)⟩
  · cases jl with
    | none =>
      simp only [hst1]
      refine ⟨fun _ => by first | rfl | trivial, fun sig hs => absurd hs (by simp)⟩
    | some label =>
      simp only [hst1]
      split
      · refine ⟨fun _ => by first | rfl | trivial, fun sig hs => absurd hs (by simp)⟩
      · rcases hres : resolve_sinal cfg inp.preco_atual inp.candle inp.contexto
            inp.direcao_esperada inp.step_dia label jd with _ | sig0
        · simp only
          refine ⟨fun _ => by first | rfl | trivial, fun sig hs => absurd hs (by simp)⟩
        · simp only
          refine ⟨fun hn => absurd hn (by simp), fun sig hs => ?_⟩
          have hsig : sig0 = sig := by simpa using hs
          subst hsig
          rw [resolve_sinal_janela _ _ _ _ _ _ _ _ _ hres, hday]

/-- When the observed day key differs from the stored one, the call either
does not get past the session gate (state untouched) or clears the counters
for the new day before at most one issuance. -/
theorem stepCall_new_day (cfg : ConfiguracaoOperacional) (st : EngineState)
    (inp : CallInput) (hday : st.day_key ≠ some inp.day_key) :
    (stepCall cfg st inp).2 = st ∨
    ((stepCall cfg st inp).2.day_key = some inp.day_key ∧
      ((stepCall cfg st inp).2.ops_by_window = [] ∨
        ∃ sig, (stepCall cfg st inp).1 = some sig ∧
          (stepCall cfg st inp).2.ops_by_window = [(sig.janela, 1)])) := by
  have hst1 : _reset_if_new_day st inp.day_key = ⟨some inp.day_key, []⟩ := by
    unfold _reset_if_new_day
    rw [if_pos hday]
  unfold stepCall analisar_oportunidade
  rcases hj : janela_atual cfg inp.agora with ⟨b, jl, jd⟩
  cases b
  · exact Or.inl rfl
  · cases jl with
    | none =>
      simp only [hst1]
      refine Or.inr ⟨by first | rfl | trivial, Or.inl (by first | rfl | trivial)⟩
    | some label =>
      simp only [hst1]
      split
      · refine Or.inr ⟨by first | rfl | trivial, Or.inl (by first | rfl | trivial)⟩
      · rcases hres : resolve_sinal cfg inp.preco_atual inp.candle inp.contexto
            inp.direcao_esperada inp.step_dia label jd with _ | sig0
        · simp only
          refine Or.inr ⟨by first | rfl | trivial, Or.inl (by first | rfl | trivial)⟩
        · simp only
          refine Or.inr ⟨by first | rfl | trivial,
            Or.inr ⟨sig0, by first | rfl | trivial, ?_⟩⟩
          rw [resolve_sinal_janela _ _ _ _ _ _ _ _ _ hres]
          first | rfl | trivial

end OperacionalXauusd

namespace OperacionalXauusd

/-- Test candle for the quota scenario: a sell rejection with upper wick 5. -/
def candleA : Candle := ⟨2004, 2009, 1999, 2000⟩

def ctxA : Contexto := ⟨none, some 2020⟩

def inpA : CallInput := ⟨2005, candleA, ctxA, ⟨23, 30⟩, 0, none, some 10⟩

def inpB : CallInput := ⟨2005, candleA, ctxA, ⟨23, 30⟩, 1, none, some 10⟩

/-- The signal issued in the quota scenario: sell at 2005 off level 2000,
structural stop 2035, risk 30. -/
def sigA : SinalOperacional :=
  ⟨Direcao.VENDA, 2005, 2035, [1990, 1980, 1970, 1960], 2000, 5/2, 30, "23:20-00:30"⟩

set_option maxRecDepth 8000 in
set_option maxHeartbeats 2000000 in
theorem tentar_2005_2000 :
    tentar_candidato defaultConfig 2005 candleA ctxA 10 "23:20-00:30"
      ⟨2000, 10, "suporte", 5⟩ "VENDA" = some sigA := by
  norm_num [tentar_candidato, sigA, candleA, ctxA, dir_if_venda, dir_venda_eq_compra_iff,
    venda_eq_compra_iff, venda_eq_venda_iff, detectar_rejeicao, calcular_stop,
    risco_pontos, gerar_alvos, defaultConfig, pyRound2, pyRound, min_def, max_def,
    Option.some_ne_none, List.cons_ne_nil, abs_of_nonneg, abs_of_nonpos, List.range',
    List.filterMap, -Int.self_sub_floor]

set_option maxRecDepth 8000 in
set_option maxHeartbeats 2000000 in
theorem resolve_2005 :
    resolve_sinal defaultConfig 2005 candleA ctxA none (some 10) "23:20-00:30"
      (some "VENDA") = some sigA := by
  norm_num [resolve_sinal, niveis_2005, pyUpper_venda, pyOrStr, venda_eq_compra_iff,
    venda_eq_empty_iff, venda_eq_ambas_iff, venda_eq_venda_iff,
    List.findSome?_cons, tentar_2005_2000]

theorem reset_same_one :
    _reset_if_new_day ⟨some 0, [("23:20-00:30", 1)]⟩ 0 = ⟨some 0, [("23:20-00:30", 1)]⟩ := rfl

theorem reset_same_two :
    _reset_if_new_day ⟨some 0, [("23:20-00:30", 2)]⟩ 0 = ⟨some 0, [("23:20-00:30", 2)]⟩ := rfl

theorem reset_new_two :
    _reset_if_new_day ⟨some 0, [("23:20-00:30", 2)]⟩ 1 = ⟨some 1, []⟩ := rfl

theorem lookup_one :
    ([("23:20-00:30", 1)] : List (String × ℕ)).lookup "23:20-00:30" = some 1 := rfl

theorem lookup_two :
    ([("23:20-00:30", 2)] : List (String × ℕ)).lookup "23:20-00:30" = some 2 := rfl

theorem dictInsert_two :
    dictInsert [("23:20-00:30", 1)] "23:20-00:30" 2 = [("23:20-00:30", 2)] := rfl

theorem stepA1 : stepCall defaultConfig initialState inpA =
    (some sigA, ⟨some 0, [("23:20-00:30", 1)]⟩) := by
  norm_num [stepCall, inpA, analisar_oportunidade, janela_atual_2330, reset_initial_day0,
    resolve_2005, defaultConfig_max_ops, List.lookup, dictInsert]

theorem stepA2 : stepCall defaultConfig ⟨some 0, [("23:20-00:30", 1)]⟩ inpA =
    (some sigA, ⟨some 0, [("23:20-00:30", 2)]⟩) := by
  norm_num [stepCall, inpA, analisar_oportunidade, janela_atual_2330, reset_same_one,
    resolve_2005, defaultConfig_max_ops, lookup_one, dictInsert_two]

theorem stepA3 : stepCall defaultConfig ⟨some 0, [("23:20-00:30", 2)]⟩ inpA =
    (none, ⟨some 0, [("23:20-00:30", 2)]⟩) := by
  norm_num [stepCall, inpA, analisar_oportunidade, janela_atual_2330, reset_same_two,
    defaultConfig_max_ops, lookup_two]

theorem stepB1 : stepCall defaultConfig ⟨some 0, [("23:20-00:30", 2)]⟩ inpB =
    (some sigA, ⟨some 1, [("23:20-00:30", 1)]⟩) := by
  norm_num [stepCall, inpB, analisar_oportunidade, janela_atual_2330, reset_new_two,
    resolve_2005, defaultConfig_max_ops, List.lookup, dictInsert]

end OperacionalXauusd

namespace OperacionalXauusd

/-- C2: in every state reachable from a fresh engine the per-window counts
never exceed `max_operacoes_por_janela` (default 2); with an unchanged day
key a call never resets the counters — a refused call leaves the state
untouched and a successful one only bumps the resolved window's count; a
day-key change (processed in-session) clears the counters before at most
one issuance; and concretely, two signals issue in the 23:20-00:30 window,
a third same-day call is refused without touching the state, and after the
day key advances the same window issues again. -/
theorem C2_per_window_quota :
    (∀ (cfg : ConfiguracaoOperacional) (calls : List CallInput),
      ∀ p ∈ (runCalls cfg initialState calls).ops_by_window,
        p.2 ≤ cfg.max_operacoes_por_janela) ∧
    defaultConfig.max_operacoes_por_janela = 2 ∧
    (∀ (cfg : ConfiguracaoOperacional) (st : EngineState) (inp : CallInput),
      st.day_key = some inp.day_key →
      ((stepCall cfg st inp).1 = none → (stepCall cfg st inp).2 = st) ∧
      (∀ sig, (stepCall cfg st inp).1 = some sig →
        (stepCall cfg st inp).2 = ⟨st.day_key, dictInsert st.ops_by_window sig.janela
          ((st.ops_by_window.lookup sig.janela).getD 0 + 1)⟩)) ∧
    (∀ (cfg : ConfiguracaoOperacional) (st : EngineState) (inp : CallInput),
      st.day_key ≠ some inp.day_key →
      (stepCall cfg st inp).2 = st ∨
      ((stepCall cfg st inp).2.day_key = some inp.day_key ∧
        ((stepCall cfg st inp).2.ops_by_window = [] ∨
          ∃ sig, (stepCall cfg st inp).1 = some sig ∧
            (stepCall cfg st inp).2.ops_by_window = [(sig.janela, 1)]))) ∧
    (stepCall defaultConfig initialState inpA =
        (some sigA, ⟨some 0, [("23:20-00:30", 1)]⟩) ∧
      stepCall defaultConfig ⟨some 0, [("23:20-00:30", 1)]⟩ inpA =
        (some sigA, ⟨some 0, [("23:20-00:30", 2)]⟩) ∧
      stepCall defaultConfig ⟨some 0, [("23:20-00:30", 2)]⟩ inpA =
        (none, ⟨some 0, [("23:20-00:30", 2)]⟩) ∧
      stepCall defaultConfig ⟨some 0, [("23:20-00:30", 2)]⟩ inpB =
        (some sigA, ⟨some 1, [("23:20-00:30", 1)]⟩)) :=
  ⟨runCalls_bounded, rfl, stepCall_same_day, stepCall_new_day,
   stepA1, stepA2, stepA3, stepB1⟩

/-- C2 witness: the quota bound after one concrete call, and the same-day
no-reset clauses applied to the concrete refused and successful calls. -/
theorem C2_per_window_quota_witness :
    (1 ≤ defaultConfig.max_operacoes_por_janela) ∧
    (stepCall defaultConfig ⟨some 0, [("23:20-00:30", 2)]⟩ inpA).2 =
      ⟨some 0, [("23:20-00:30", 2)]⟩ ∧
    (stepCall defaultConfig ⟨some 0, [("23:20-00:30", 1)]⟩ inpA).2 =
      ⟨some 0, dictInsert [("23:20-00:30", 1)] sigA.janela
        (([("23:20-00:30", 1)].lookup sigA.janela).getD 0 + 1)⟩ :=
  ⟨C2_per_window_quota.1 defaultConfig [inpA] ("23:20-00:30", 1)
      (by rw [show runCalls defaultConfig initialState [inpA]
            = (stepCall defaultConfig initialState inpA).2 from rfl, stepA1]
          exact List.mem_cons_self _ _),
   (C2_per_window_quota.2.2.1 defaultConfig ⟨some 0, [("23:20-00:30", 2)]⟩ inpA rfl).1
     (by rw [stepA3]),
   (C2_per_window_quota.2.2.1 defaultConfig ⟨some 0, [("23:20-00:30", 1)]⟩ inpA rfl).2
     sigA (by rw [stepA2])⟩

end OperacionalXauusd
